import Mathlib

/-!
# Verification of the TextAnalyzer core against its specification

A shallow embedding, in Lean 4, of the algorithmic core of the TextAnalyzer
repository: the input validator (`src/utils/input_validator.py`), the five
analyzers (`src/analyzers/*.py`), the ensemble engine
(`src/core/ensemble_engine.py`), the uncertainty quantifier
(`src/utils/confidence_metrics.py`), the calibrator's grid search
(`src/utils/calibrator.py`) and the facade (`src/core/text_analyzer.py`).

Numbers are modelled over `ℝ` (Python floats are idealised as reals; the
explicit `round(x, n)` calls of the source are kept, as `roundTo`, with
Python's round-half-to-even semantics).  Python exceptions are modelled with
`Except String`.  Wall-clock data (`processing_time_ms`, `timestamp`) is
modelled by the constants `0` and `""`: no claim concerns it.
-/

namespace TextAnalyzerModel


/-! ## Python numeric helpers -/

/-- Python's built-in `round` to an integer: round-half-to-even
(banker's rounding). -/
noncomputable def pyRound (x : ℝ) : ℤ :=
  if Int.fract x = 1/2 then (if Even ⌊x⌋ then ⌊x⌋ else ⌊x⌋ + 1) else ⌊x + 1/2⌋

/-- Python's `round(x, n)` for `n` decimal digits. -/
noncomputable def roundTo (n : ℕ) (x : ℝ) : ℝ :=
  (pyRound (x * 10 ^ n) : ℝ) / 10 ^ n

/-! ## List statistics (`statistics.mean/stdev/variance`, `np.std`) -/

/-- `statistics.mean` (the Python call raises on `[]`; every use in the
source is guarded, so the junk value `0` of `x / 0` is never consulted). -/
noncomputable def listMean (xs : List ℝ) : ℝ := xs.sum / xs.length

/-- `statistics.variance`: the sample variance (denominator `n - 1`).
The Python call raises `StatisticsError` for fewer than two data points;
call sites model that raise explicitly. -/
noncomputable def sampleVar (xs : List ℝ) : ℝ :=
  ((xs.map (fun x => (x - listMean xs) ^ 2)).sum) / ((xs.length - 1 : ℕ) : ℝ)

/-- `statistics.stdev`: square root of the sample variance. -/
noncomputable def sampleStd (xs : List ℝ) : ℝ := Real.sqrt (sampleVar xs)

/-- `np.var`-style population variance (denominator `n`). -/
noncomputable def popVar (xs : List ℝ) : ℝ :=
  ((xs.map (fun x => (x - listMean xs) ^ 2)).sum) / (xs.length : ℝ)

/-- `np.std`: square root of the population variance. -/
noncomputable def popStd (xs : List ℝ) : ℝ := Real.sqrt (popVar xs)

/-! ## Python string helpers

All string manipulation is implemented by structural recursion over
`List Char` (`String.data`), so that concrete runs reduce inside the
kernel; `String`'s own `split`/`trim` use well-founded recursion on byte
positions and would not. -/

/-- Split at every delimiter character, keeping empty pieces
(`str.split(c)` / `re.split` semantics). -/
def splitOnPred (p : Char → Bool) : List Char → List (List Char)
  | [] => [[]]
  | c :: cs =>
    let r := splitOnPred p cs
    if p c then [] :: r else (c :: r.headD []) :: r.tail

/-- Strip an expected character sequence from the front. -/
def dropSeq : List Char → List Char → Option (List Char)
  | [], cs => some cs
  | _ :: _, [] => none
  | k :: ks, c :: cs => if c = k then dropSeq ks cs else none

/-- Strip whitespace from both ends (`str.strip()`). -/
def trimL (cs : List Char) : List Char :=
  ((cs.dropWhile (fun c => c.isWhitespace)).reverse.dropWhile
    (fun c => c.isWhitespace)).reverse

/-- `str.strip()`. -/
def pyStrip (s : String) : String := String.mk (trimL s.data)

/-- `str.lower()` (ASCII view, as all fixed patterns of the source are
ASCII). -/
def pyLower (s : String) : String := String.mk (s.data.map Char.toLower)

/-- `suffix` test over char lists (`str.endswith`). -/
def endsWithL (pat : List Char) (cs : List Char) : Bool :=
  (dropSeq pat.reverse cs.reverse).isSome

def strEndsWith (s : String) (pat : String) : Bool := endsWithL pat.data s.data

/-- Python `str.split()` with no argument: split on whitespace, discarding
empty pieces (equivalently: split on whitespace runs). -/
def pySplit (s : String) : List String :=
  ((splitOnPred (fun c => c.isWhitespace) s.data).map String.mk).filter
    (fun w => w ≠ "")

/-- `re.split(r'[.!?]+', text)` followed by the source's
`[s.strip() for s in sentences if s.strip()]`: splitting on the single
delimiter characters yields extra empty pieces between consecutive
delimiters, and exactly those are removed by the strip-and-filter step. -/
def sentencesOf (s : String) : List String :=
  ((splitOnPred (fun c => c == '.' || c == '!' || c == '?') s.data).map
    (fun cs => String.mk (trimL cs))).filter (fun x => x ≠ "")

/-- `text.split('\n\n')`: leftmost, non-overlapping. -/
def splitOnNN : List Char → List (List Char)
  | '\n' :: '\n' :: cs => [] :: splitOnNN cs
  | c :: cs =>
    let r := splitOnNN cs
    (c :: r.headD []) :: r.tail
  | [] => [[]]

/-- Number of maximal runs of `[.!?]`, i.e. `len(re.findall(r'[.!?]+', text))`.
The boolean argument records whether the scan is currently inside a run. -/
def punctRunCount : List Char → Bool → ℕ
  | [], _ => 0
  | c :: cs, inRun =>
    if c == '.' || c == '!' || c == '?' then
      if inRun then punctRunCount cs true else punctRunCount cs true + 1
    else punctRunCount cs false

/-- First-occurrence deduplication, as Python's `dict`/`Counter`/`set`
iteration order (insertion order) provides. -/
def pyDedup {α : Type} [DecidableEq α] : List α → List α
  | [] => []
  | x :: xs => x :: pyDedup (xs.filter (fun y => y ≠ x))
termination_by l => l.length
decreasing_by
  simp only [List.length_cons]
  exact Nat.lt_succ_of_le (List.length_filter_le _ _)

/-- `Counter(l)` as an insertion-ordered association list. -/
def freqCounts {α : Type} [DecidableEq α] (l : List α) : List (α × ℕ) :=
  (pyDedup l).map (fun x => (x, l.count x))

/-- `list(Counter(l).values())`. -/
def freqValues {α : Type} [DecidableEq α] (l : List α) : List ℕ :=
  (freqCounts l).map (fun p => p.2)

/-- `Counter.most_common(1)`: largest count, ties resolved in favour of the
first-encountered element (Python's sort is stable over insertion order). -/
def mostCommon1 {α : Type} [DecidableEq α] : List (α × ℕ) → Option (α × ℕ)
  | [] => none
  | p :: ps => some (ps.foldl (fun b q => if q.2 > b.2 then q else b) p)

/-- Python `max(l)` with an explicit default for the guarded empty case. -/
def listMaxD (l : List ℕ) (d : ℕ) : ℕ :=
  match l with
  | [] => d
  | x :: xs => xs.foldl max x

/-- Python `min(l)` with an explicit default for the guarded empty case. -/
def listMinD (l : List ℕ) (d : ℕ) : ℕ :=
  match l with
  | [] => d
  | x :: xs => xs.foldl min x

/-- `BaseAnalyzer._safe_divide` with its default `0.0`. -/
noncomputable def safeDivide (a b : ℝ) : ℝ := if b = 0 then 0 else a / b

/-! ## Regex matchers used by `InputValidator._validate_security`

Hand-rolled decision procedures for the fixed patterns of the source.  All
character classes involved (`\w`, `\s`, digits, `=`) are pairwise disjoint,
so greedy scanning without backtracking matches the regex semantics. -/

/-- `\w` (ASCII view). -/
def isWordChar (c : Char) : Bool := c.isAlphanum || c == '_'

/-- Substring occurrence (`pat in text` / an unanchored `re.search`). -/
def hasSubstr (pat : List Char) : List Char → Bool
  | [] => (dropSeq pat []).isSome
  | c :: cs => (dropSeq pat (c :: cs)).isSome || hasSubstr pat cs

/-- Greedy `p*`. -/
def skipMany0 (p : Char → Bool) : List Char → List Char
  | [] => []
  | c :: cs => if p c then skipMany0 p cs else c :: cs

/-- Greedy `p+`: `none` when the first character does not match. -/
def skipMany1 (p : Char → Bool) : List Char → Option (List Char)
  | [] => none
  | c :: cs => if p c then some (skipMany0 p cs) else none

/-- Does `kw` occur here, with a word boundary after it? -/
def kwMatchAt (kw : List Char) (cs : List Char) : Bool :=
  match dropSeq kw cs with
  | some [] => true
  | some (c :: _) => !isWordChar c
  | none => false

/-- `prev` is a word boundary (start of text or a non-word character). -/
def prevOk : Option Char → Bool
  | none => true
  | some p => !isWordChar p

/-- `\bKW\b` for an alphabetic keyword `kw`, scanned over `cs`. -/
def hasBoundedKwGo (kw : List Char) : Option Char → List Char → Bool
  | _, [] => false
  | prev, c :: cs => (prevOk prev && kwMatchAt kw (c :: cs)) || hasBoundedKwGo kw (some c) cs

def hasBoundedKw (kw : List Char) (cs : List Char) : Bool := hasBoundedKwGo kw none cs

/-- `\s+\d+\s*=\s*\d` — the tail of the SQL comparison pattern
`(UNION|OR|AND)\s+\d+\s*=\s*\d+` (one digit at the end suffices). -/
def sqlCmpTail (cs : List Char) : Bool :=
  match skipMany1 (fun c => c.isWhitespace) cs with
  | none => false
  | some cs1 =>
    match skipMany1 (fun c => c.isDigit) cs1 with
    | none => false
    | some cs2 =>
      match skipMany0 (fun c => c.isWhitespace) cs2 with
      | '=' :: cs3 =>
        match skipMany0 (fun c => c.isWhitespace) cs3 with
        | d :: _ => d.isDigit
        | [] => false
      | _ => false

/-- One of `union|or|and` starts here (lower-cased input) and the comparison
tail follows. -/
def sqlCmpAt (cs : List Char) : Bool :=
  (["union", "or", "and"].map String.data).any (fun kw =>
    match dropSeq kw cs with
    | some rest => sqlCmpTail rest
    | none => false)

def hasSqlCmpGo : Option Char → List Char → Bool
  | _, [] => false
  | prev, c :: cs => (prevOk prev && sqlCmpAt (c :: cs)) || hasSqlCmpGo (some c) cs

/-- `\b(UNION|OR|AND)\s+\d+\s*=\s*\d+` over lower-cased text. -/
def hasSqlCmp (cs : List Char) : Bool := hasSqlCmpGo none cs

/-- `on\w+\s*=` starts at this position (lower-cased input). -/
def onAttrAt : List Char → Bool
  | 'o' :: 'n' :: rest =>
    (match skipMany1 isWordChar rest with
     | some rest2 =>
       match skipMany0 (fun c => c.isWhitespace) rest2 with
       | '=' :: _ => true
       | _ => false
     | none => false)
  | _ => false

/-- Unanchored `re.search(r'on\w+\s*=', ...)`. -/
def hasOnAttr : List Char → Bool
  | [] => false
  | c :: cs => onAttrAt (c :: cs) || hasOnAttr cs

/-- A Python value passed where text is expected: either an actual `str`
(modelled by `String`) or some non-string value (`nonStr`), whose only
relevant property is failing `isinstance(text, str)`. -/
inductive PyInput where
  | str (s : String)
  | nonStr

/-! ## `InputValidator` (`src/utils/input_validator.py`) -/

/-- The validator's result; of the Python result dict we model the fields
that determine control flow (`valid`, `errors`) plus the base warnings.
The suspicious-pattern and quality warnings, the quality score, the stats
and the sanitized text never influence `valid` and are referenced by no
claim, so they are not carried. -/
structure ValidationOut where
  valid : Bool
  errors : List String
  warnings : List String
deriving DecidableEq, Repr

/-- `_validate_base` errors.  The UTF-8 encoding check cannot fail for a
Lean `String` (always valid unicode without surrogates), matching Python
`str` for the practically relevant inputs.  The interpolated counts of the
source messages are elided. -/
def baseErrors (s : String) : List String :=
  (if s.length = 0 then ["Empty text"]
   else if s.length > 50000 then ["Text too long (chars)"] else []) ++
  (if (pySplit s).length > 5000 then ["Text too long (words)"] else [])

/-- `_validate_base` warnings: a word count below the minimum of 10 only
warns (the `VALIDATION_RANGES['min_length']` branch appends to `warnings`,
not to `errors`), and so does a missing sentence terminator. -/
def baseWarnings (s : String) : List String :=
  (if (pySplit s).length < 10 then ["Very short text"] else []) ++
  (if punctRunCount s.data false = 0 then ["No clear sentence structure detected"]
   else [])

def sqlMsg : String := "Contains suspicious SQL-like patterns"

def xssMsg : String := "Contains potential XSS patterns"

/-- `_validate_security`.  The third SQL pattern `('|(\x27|'))` matches any
single-quote character (written `Char.ofNat 39` below); each matching
pattern appends one copy of its message, as the source loops do. -/
def securityErrors (s : String) : List String :=
  let cs := s.data
  let low := (pyLower s).data
  (if cs.any (fun c => c.toNat ≤ 8 || (0x0B ≤ c.toNat && c.toNat ≤ 0x0C) ||
      (0x0E ≤ c.toNat && c.toNat ≤ 0x1F)) then
    ["Contains control characters (potential security risk)"] else []) ++
  (if (["select", "insert", "update", "delete", "drop", "create", "alter"].map
      String.data).any (fun kw => hasBoundedKw kw low) then [sqlMsg] else []) ++
  (if hasSqlCmp low then [sqlMsg] else []) ++
  (if hasSubstr [Char.ofNat 39] cs then [sqlMsg] else []) ++
  (if hasSubstr "<script".data low then [xssMsg] else []) ++
  (if hasSubstr "javascript:".data low then [xssMsg] else []) ++
  (if hasOnAttr low then [xssMsg] else [])

/-- `InputValidator.validate_text`.  For a non-string the base check reports
the type error; the subsequent `re.search` on the non-string then raises a
`TypeError` which the surrounding `try/except` converts into a second error
entry ("Validation failed: ...").  `valid` is `errors == []`. -/
def validateText : PyInput → ValidationOut
  | .nonStr =>
    { valid := false
      errors := ["Input must be a string",
                 "Validation failed: expected string or bytes-like object"]
      warnings := [] }
  | .str s =>
    let errs := baseErrors s ++ securityErrors s
    { valid := errs.isEmpty, errors := errs, warnings := baseWarnings s }

/-! ## `BaseAnalyzer._validate_input` (`src/analyzers/base_analyzer.py`) -/

/-- The per-analyzer input check, as an optional error message.
`not text or not text.strip()` collapses to `trim = ""` (an empty string
trims to itself). -/
def strValidateErr (s : String) : Option String :=
  if pyStrip s = "" then some "Input text cannot be empty"
  else if (pyStrip s).length < 10 then some "Input text too short (min 10 characters)"
  else none

def validateInputErr : PyInput → Option String
  | .nonStr => some "Input must be string"
  | .str s => strValidateErr s

/-- Every analyzer's `analyze` is `_validate_input` followed by an
exception-free metric computation (each division, `stdev`, `variance`,
`mean`, `max`, `min` and list index in the five analyzer bodies is guarded
in the source), so the raise behaviour is exactly the validation guard. -/
def analyzeGuard {M : Type} (metrics : String → M) : PyInput → Except String M
  | .nonStr => .error "Input must be string"
  | .str s =>
    match strValidateErr s with
    | some e => .error e
    | none => .ok (metrics s)

/-! ## `LexicalAnalyzer` (`src/analyzers/lexical_analyzer.py`) -/

/-- Progressive type-token ratio: after each word, distinct-so-far over
words-so-far. -/
noncomputable def ttrProgressive (ws : List String) : List ℝ :=
  (List.range ws.length).map
    (fun i => ((pyDedup (ws.take (i + 1))).length : ℝ) / (i + 1))

structure LexMetrics where
  ttr : ℝ
  ttr_variation : ℝ
  burstiness : ℝ
  unique_words_ratio : ℝ
  vocabulary_richness : ℝ
  complex_words_ratio : ℝ
  long_words_ratio : ℝ
  total_words : ℕ
  unique_words : ℕ
  most_common_word : String
  most_common_freq : ℕ
  confidence : ℝ

/-- `words = text.lower().split()`. -/
def lexWords (s : String) : List String := pySplit (pyLower s)

/-- `ttr = len(unique_words) / len(words) if words else 0` (also
`unique_words_ratio` and `vocabulary_richness`, computed identically). -/
noncomputable def lexTtr (s : String) : ℝ :=
  if (lexWords s).isEmpty then 0
  else ((pyDedup (lexWords s)).length : ℝ) / (lexWords s).length

/-- `frequencies = list(Counter(words).values())`. -/
def lexFrequencies (s : String) : List ℕ := freqValues (lexWords s)

noncomputable def lexFrequenciesR (s : String) : List ℝ :=
  (lexFrequencies s).map (fun n => (n : ℝ))

noncomputable def lexMeanFreq (s : String) : ℝ :=
  if (lexFrequencies s).isEmpty then 0 else listMean (lexFrequenciesR s)

noncomputable def lexStdFreq (s : String) : ℝ :=
  if 1 < (lexFrequencies s).length then sampleStd (lexFrequenciesR s) else 0

/-- `burstiness = (std_freq - mean_freq) / (std_freq + mean_freq)` when the
mean frequency is positive, else the initial `0`. -/
noncomputable def lexBurstiness (s : String) : ℝ :=
  if 0 < lexMeanFreq s then
    (lexStdFreq s - lexMeanFreq s) / (lexStdFreq s + lexMeanFreq s)
  else 0

noncomputable def lexTtrVariation (s : String) : ℝ :=
  if 1 < (ttrProgressive (lexWords s)).length then
    sampleStd (ttrProgressive (lexWords s))
  else 0

noncomputable def lexComplexRatio (s : String) : ℝ :=
  if (lexWords s).isEmpty then 0
  else (((lexWords s).filter (fun w => 6 < w.length)).length : ℝ) / (lexWords s).length

noncomputable def lexLongRatio (s : String) : ℝ :=
  if (lexWords s).isEmpty then 0
  else (((lexWords s).filter (fun w => 7 < w.length)).length : ℝ) / (lexWords s).length

/-- `confidence = min(0.9, 0.6 + abs(ttr - 0.5) * 0.6)`. -/
noncomputable def lexConfidence (s : String) : ℝ :=
  min 0.9 (0.6 + |lexTtr s - 0.5| * 0.6)

noncomputable def lexicalMetrics (s : String) : LexMetrics :=
  { ttr := roundTo 4 (lexTtr s)
    ttr_variation := roundTo 4 (lexTtrVariation s)
    burstiness := roundTo 4 (lexBurstiness s)
    unique_words_ratio := roundTo 4 (lexTtr s)
    vocabulary_richness := roundTo 4 (lexTtr s)
    complex_words_ratio := roundTo 4 (lexComplexRatio s)
    long_words_ratio := roundTo 4 (lexLongRatio s)
    total_words := (lexWords s).length
    unique_words := (pyDedup (lexWords s)).length
    most_common_word :=
      ((mostCommon1 (freqCounts (lexWords s))).map (fun p => p.1)).getD ""
    most_common_freq :=
      ((mostCommon1 (freqCounts (lexWords s))).map (fun p => p.2)).getD 0
    confidence := roundTo 4 (lexConfidence s) }

/-- `LexicalAnalyzer.predict`: fixed increments accumulated into an
`ai_score`, then clamped by `min(1.0, ·)`.  The `metrics.get(...)` reads
always find their keys (the metric dict always carries them). -/
noncomputable def lexPredict (m : LexMetrics) : ℝ × ℝ :=
  let aiScore : ℝ :=
    (if 0.8 < m.ttr then 0.4 else if m.ttr < 0.3 then 0.3 else 0) +
    (if m.burstiness < 0.1 then 0.3 else 0) +
    (if 0.9 < m.unique_words_ratio then 0.2 else 0)
  let aiProb := min 1 aiScore
  (aiProb, 1 - aiProb)

/-! ## `SyntacticAnalyzer` (`src/analyzers/syntactic_analyzer.py`) -/

structure SynMetrics where
  avg_sentence_length : ℝ
  min_sentence_length : ℕ
  max_sentence_length : ℕ
  sentence_variability : ℝ
  pattern_repetitiveness : ℝ
  sentence_count : ℕ
  total_words : ℕ
  avg_words_per_sentence : ℝ
  confidence : ℝ

/-- The (first word, last word, middle word) pattern of a sentence with more
than three words. -/
def patternOf (sent : String) : Option (String × String × String) :=
  let ws := pySplit (pyLower sent)
  if 3 < ws.length then
    some (ws.getD 0 "", ws.getD (ws.length - 1) "", ws.getD (ws.length / 2) "")
  else none

def synSentences (s : String) : List String := sentencesOf s

def synLengths (s : String) : List ℕ :=
  (synSentences s).map (fun x => (pySplit x).length)

noncomputable def synLengthsR (s : String) : List ℝ :=
  (synLengths s).map (fun n => (n : ℝ))

noncomputable def synAvgLength (s : String) : ℝ :=
  if 1 < (synLengths s).length then listMean (synLengthsR s)
  else (((synLengths s).headD 0 : ℕ) : ℝ)

/-- `variability = std_length / avg_length if avg_length > 0 else 0`, only
computed for more than one sentence, else `0.0`. -/
noncomputable def synVariability (s : String) : ℝ :=
  if 1 < (synLengths s).length then
    (if 0 < listMean (synLengthsR s) then
      sampleStd (synLengthsR s) / listMean (synLengthsR s)
    else 0)
  else 0

def synPatternScores (s : String) : List (String × String × String) :=
  ((synSentences s).take 10).filterMap patternOf

def synRepetitions (s : String) : ℕ :=
  ((pyDedup (synPatternScores s)).filter
    (fun p => 1 < (synPatternScores s).count p)).length

noncomputable def synPatternRep (s : String) : ℝ :=
  if (synPatternScores s).isEmpty then 0
  else (synRepetitions s : ℝ) / (synPatternScores s).length

/-- `confidence = min(0.9, 0.5 + variability * 0.4)`. -/
noncomputable def synConfidence (s : String) : ℝ :=
  min 0.9 (0.5 + synVariability s * 0.4)

noncomputable def syntacticMetrics (s : String) : SynMetrics :=
  { avg_sentence_length := roundTo 2 (synAvgLength s)
    min_sentence_length := listMinD (synLengths s) 0
    max_sentence_length := listMaxD (synLengths s) 0
    sentence_variability := roundTo 4 (synVariability s)
    pattern_repetitiveness := roundTo 4 (synPatternRep s)
    sentence_count := (synSentences s).length
    total_words := (synLengths s).sum
    avg_words_per_sentence :=
      roundTo 2 (safeDivide ((synLengths s).sum : ℝ) ((synSentences s).length : ℝ))
    confidence := roundTo 4 (synConfidence s) }

noncomputable def synPredict (m : SynMetrics) : ℝ × ℝ :=
  let aiScore : ℝ :=
    (if m.sentence_variability < 0.2 then 0.4 else 0) +
    (if m.pattern_repetitiveness < 0.001 then 0.3
     else if 0.5 < m.pattern_repetitiveness then 0.2 else 0)
  let aiProb := min 1 aiScore
  (aiProb, 1 - aiProb)

/-! ## `SemanticAnalyzer` (`src/analyzers/semantic_analyzer.py`) -/

structure SemMetrics where
  subjectivity : ℝ
  conceptual_density : ℝ
  concept_diversity : ℝ
  thematic_coherence : ℝ
  max_thematic_overlap : ℕ
  overlap_variability : ℝ
  complex_words_count : ℕ
  adverbs_count : ℕ
  confidence : ℝ

/-- `len(set(a) & set(b))` for word lists. -/
def overlapCount (a b : List String) : ℕ :=
  ((pyDedup a).filter (fun w => b.contains w)).length

def semWords (s : String) : List String := pySplit (pyLower s)

/-- `conceptual_density = complex_words / len(words) if words else 0`. -/
noncomputable def semConceptualDensity (s : String) : ℝ :=
  if (semWords s).isEmpty then 0
  else (((semWords s).filter (fun w => 7 < w.length)).length : ℝ) / (semWords s).length

/-- `confidence = min(0.9, 0.4 + conceptual_density * 0.5)`. -/
noncomputable def semConfidence (s : String) : ℝ :=
  min 0.9 (0.4 + semConceptualDensity s * 0.5)

noncomputable def semanticMetrics (s : String) : SemMetrics :=
  let words := semWords s
  let adjAdv := (words.filter (fun w => strEndsWith w "ly" || strEndsWith w "ous")).length
  let subjectivity : ℝ := if words.isEmpty then 0.5 else (adjAdv : ℝ) / words.length
  let complexWords := (words.filter (fun w => 7 < w.length)).length
  let contentWords := words.filter (fun w => 4 < w.length)
  let conceptDiversity : ℝ :=
    if contentWords.isEmpty then 0
    else ((pyDedup contentWords).length : ℝ) / contentWords.length
  let sentences := sentencesOf s
  let wordSets := sentences.map (fun x => pySplit (pyLower x))
  let overlaps : List ℕ := (wordSets.zip wordSets.tail).map (fun p => overlapCount p.1 p.2)
  let overlapsR : List ℝ := overlaps.map (fun n => (n : ℝ))
  let avgOverlap : ℝ := if overlaps.isEmpty then 0 else listMean overlapsR
  let overlapVar : ℝ := if 1 < overlaps.length then sampleStd overlapsR else 0
  { subjectivity := roundTo 4 subjectivity
    conceptual_density := roundTo 4 (semConceptualDensity s)
    concept_diversity := roundTo 4 conceptDiversity
    thematic_coherence := roundTo 2 avgOverlap
    max_thematic_overlap := listMaxD overlaps 0
    overlap_variability := roundTo 3 overlapVar
    complex_words_count := complexWords
    adverbs_count := (words.filter (fun w => strEndsWith w "ly")).length
    confidence := roundTo 4 (semConfidence s) }

noncomputable def semPredict (m : SemMetrics) : ℝ × ℝ :=
  let aiScore : ℝ :=
    (if m.subjectivity < 0.1 then 0.3 else 0) +
    (if 0.15 < m.conceptual_density ∧ m.conceptual_density < 0.25 then 0.2 else 0) +
    (if 8 < m.thematic_coherence then 0.3 else 0)
  let aiProb := min 1 aiScore
  (aiProb, 1 - aiProb)

/-! ## `StylisticAnalyzer` (`src/analyzers/stylistic_analyzer.py`) -/

/-- Non-overlapping occurrences of `...`, i.e. Python `text.count('...')`. -/
def countTripleDots : List Char → ℕ
  | '.' :: '.' :: '.' :: rest => countTripleDots rest + 1
  | _ :: rest => countTripleDots rest
  | [] => 0

/-- A maximal run of characters of one class: word characters (with their
text), whitespace (with its text), or one other character. -/
inductive CharRun where
  | w (t : List Char)
  | sp (t : List Char)
  | oth
deriving DecidableEq

/-- Split a character list into maximal runs. -/
def toRuns : List Char → List CharRun
  | [] => []
  | c :: cs =>
    if isWordChar c then
      CharRun.w ((c :: cs).takeWhile isWordChar) ::
        toRuns ((c :: cs).dropWhile isWordChar)
    else if c.isWhitespace then
      CharRun.sp ((c :: cs).takeWhile (fun x => x.isWhitespace)) ::
        toRuns ((c :: cs).dropWhile (fun x => x.isWhitespace))
    else CharRun.oth :: toRuns cs
termination_by l => l.length
decreasing_by
  · rw [List.dropWhile_cons_of_pos (by simpa using ‹_›)]
    exact Nat.lt_succ_of_le (List.dropWhile_sublist _).length_le
  · rw [List.dropWhile_cons_of_pos (by simpa using ‹_›)]
    exact Nat.lt_succ_of_le (List.dropWhile_sublist _).length_le
  · simp

/-- `re.findall(r'\b\w+\s+\w+\s+\w+\b', text)`: a leftmost, non-overlapping
scan for word–space–word–space–word; each match is the matched text. -/
def tripleScan : List CharRun → List (List Char)
  | .w a :: .sp s1 :: .w b :: .sp s2 :: .w c :: rest =>
    (a ++ s1 ++ b ++ s2 ++ c) :: tripleScan rest
  | _ :: rest => tripleScan rest
  | [] => []

structure StyMetrics where
  punctuation_density : ℝ
  capital_ratio : ℝ
  punct_variability : ℝ
  phrase_repetitiveness : ℝ
  exclamation_count : ℕ
  question_count : ℕ
  ellipsis_count : ℕ
  quote_count : ℕ
  paragraph_count : ℕ
  avg_paragraph_length : ℝ
  avg_punct_per_sentence : ℝ
  confidence : ℝ

/-- Per-sentence punctuation counts. -/
def styPps (s : String) : List ℕ :=
  (sentencesOf s).map
    (fun x => (x.data.filter (fun c => ['.', ',', ';', ':', '!', '?'].contains c)).length)

/-- `punct_variability = stdev(punct_per_sentence)`, only for more than one
sentence, else `0.0`. -/
noncomputable def styPunctVariability (s : String) : ℝ :=
  if 1 < (styPps s).length then sampleStd ((styPps s).map (fun n => (n : ℝ))) else 0

/-- `confidence = min(0.9, 0.5 + punct_variability * 0.3)`. -/
noncomputable def styConfidence (s : String) : ℝ :=
  min 0.9 (0.5 + styPunctVariability s * 0.3)

noncomputable def stylisticMetrics (s : String) : StyMetrics :=
  let totalChars := s.length
  let punctChars := (s.data.filter
    (fun c => ['.', ',', ';', ':', '!', '?', '(', ')', '"', Char.ofNat 39].contains c)).length
  let punctDensity : ℝ := if 0 < totalChars then (punctChars : ℝ) / totalChars else 0
  let upperChars := (s.data.filter (fun c => 'A' ≤ c && c ≤ 'Z')).length
  let upperRatio : ℝ := if 0 < totalChars then (upperChars : ℝ) / totalChars else 0
  let pps : List ℕ := styPps s
  let ppsR : List ℝ := pps.map (fun n => (n : ℝ))
  let phrases := tripleScan (toRuns (pyLower s).data)
  let maxPhraseFreq : ℕ := if phrases.isEmpty then 0 else listMaxD (freqValues phrases) 0
  let phraseRep : ℝ :=
    if phrases.isEmpty then 0 else (maxPhraseFreq : ℝ) / phrases.length
  let paragraphs := ((splitOnNN s.data).map (fun cs => String.mk (trimL cs))).filter (fun p => p ≠ "")
  let avgParagraphLength : ℝ :=
    if paragraphs.isEmpty then 0
    else listMean (paragraphs.map (fun p => ((pySplit p).length : ℝ)))
  { punctuation_density := roundTo 4 punctDensity
    capital_ratio := roundTo 4 upperRatio
    punct_variability := roundTo 3 (styPunctVariability s)
    phrase_repetitiveness := roundTo 4 phraseRep
    exclamation_count := s.data.count '!'
    question_count := s.data.count '?'
    ellipsis_count := countTripleDots s.data
    quote_count := s.data.count '"' + s.data.count (Char.ofNat 39)
    paragraph_count := paragraphs.length
    avg_paragraph_length := roundTo 2 avgParagraphLength
    avg_punct_per_sentence := if pps.isEmpty then 0 else roundTo 2 (listMean ppsR)
    confidence := roundTo 4 (styConfidence s) }

noncomputable def styPredict (m : StyMetrics) : ℝ × ℝ :=
  let aiScore : ℝ :=
    (if m.punct_variability < 0.5 then 0.3 else 0) +
    (if m.capital_ratio < 0.02 then 0.2 else 0) +
    (if 0.3 < m.phrase_repetitiveness then 0.3 else 0)
  let aiProb := min 1 aiScore
  (aiProb, 1 - aiProb)

/-! ## `MLAnalyzer` (`src/analyzers/ml_analyzer.py`) -/

structure MlMetrics where
  entropy : ℝ
  length_entropy : ℝ
  transition_diversity : ℝ
  char_transition_diversity : ℝ
  complexity_score : ℝ
  max_repeat_ratio : ℝ
  unique_word_pairs : ℕ
  total_word_pairs : ℕ
  unique_char_pairs : ℕ
  vocabulary_size : ℕ
  avg_word_length : ℝ
  confidence : ℝ

/-- `-Σ p·log2(p)` over a list of counts with the given total, each summand
guarded by `if p > 0` as in the source loops. -/
noncomputable def entropyOf (counts : List ℕ) (total : ℕ) : ℝ :=
  (counts.map (fun (c : ℕ) =>
    let p : ℝ := (c : ℝ) / total
    if 0 < p then -(p * Real.logb 2 p) else 0)).sum

def mlWords (s : String) : List String := pySplit s

/-- `Counter(text.lower()).values()`. -/
def mlCharCounts (s : String) : List ℕ := freqValues (pyLower s).data

/-- `max_entropy = log2(len(char_counts)) if char_counts else 1`. -/
noncomputable def mlMaxEntropy (s : String) : ℝ :=
  if 0 < (mlCharCounts s).length then Real.logb 2 (mlCharCounts s).length else 1

/-- Shannon entropy of the character distribution divided by `max_entropy`
when that is positive, else the fallback `0.5`. -/
noncomputable def mlNormalizedEntropy (s : String) : ℝ :=
  if 0 < mlMaxEntropy s then
    entropyOf (mlCharCounts s) (mlCharCounts s).sum / mlMaxEntropy s
  else 0.5

/-- `zip(words, words[1:])`. -/
def mlWordPairs (s : String) : List (String × String) :=
  (mlWords s).zip (mlWords s).tail

/-- `unique_pairs / total_pairs if total_pairs > 0 else 0`. -/
noncomputable def mlTransitionDiversity (s : String) : ℝ :=
  if 0 < (mlWordPairs s).length then
    ((freqValues (mlWordPairs s)).length : ℝ) / (mlWordPairs s).length
  else 0

def mlCharPairs (s : String) : List (Char × Char) :=
  s.data.zip s.data.tail

noncomputable def mlCharTransitionDiversity (s : String) : ℝ :=
  if (mlCharPairs s).isEmpty then 0
  else ((freqValues (mlCharPairs s)).length : ℝ) / (mlCharPairs s).length

/-- `complexity = (normalized_entropy + transition_diversity +
char_transition_diversity) / 3`. -/
noncomputable def mlComplexity (s : String) : ℝ :=
  (mlNormalizedEntropy s + mlTransitionDiversity s + mlCharTransitionDiversity s) / 3

/-- `confidence = min(0.95, 0.6 + complexity * 0.3)`. -/
noncomputable def mlConfidence (s : String) : ℝ :=
  min 0.95 (0.6 + mlComplexity s * 0.3)

noncomputable def mlMetrics (s : String) : MlMetrics :=
  -- the source also builds a sentence list here that it never uses
  let words := mlWords s
  let wordPairs := mlWordPairs s
  let pairCounts := freqValues wordPairs
  let uniquePairs := pairCounts.length
  let totalPairs := wordPairs.length
  let charPairs := mlCharPairs s
  let wordLengths := words.map String.length
  let normalizedLengthEntropy : ℝ :=
    if wordLengths.isEmpty then 0
    else
      let lengthCounts := freqValues wordLengths
      let lengthEntropy := entropyOf lengthCounts wordLengths.length
      let maxLengthEntropy : ℝ := Real.logb 2 lengthCounts.length
      if 0 < maxLengthEntropy then lengthEntropy / maxLengthEntropy else 0.5
  let maxRepeatCount : ℕ := if pairCounts.isEmpty then 1 else listMaxD pairCounts 0
  let maxRepeatRatio : ℝ :=
    if 0 < totalPairs then (maxRepeatCount : ℝ) / totalPairs else 0
  { entropy := roundTo 4 (mlNormalizedEntropy s)
    length_entropy := roundTo 4 normalizedLengthEntropy
    transition_diversity := roundTo 4 (mlTransitionDiversity s)
    char_transition_diversity := roundTo 4 (mlCharTransitionDiversity s)
    complexity_score := roundTo 4 (mlComplexity s)
    max_repeat_ratio := roundTo 4 maxRepeatRatio
    unique_word_pairs := uniquePairs
    total_word_pairs := totalPairs
    unique_char_pairs := (freqValues charPairs).length
    vocabulary_size := (pyDedup words).length
    avg_word_length := if wordLengths.isEmpty then 0
      else roundTo 2 (listMean (wordLengths.map (fun n => (n : ℝ))))
    confidence := roundTo 4 (mlConfidence s) }

/-- `MLAnalyzer.predict` (it also reads `complexity_score` into a local it
never uses). -/
noncomputable def mlPredict (m : MlMetrics) : ℝ × ℝ :=
  let aiScore : ℝ :=
    (if m.entropy < 0.3 ∨ 0.8 < m.entropy then 0.3 else 0) +
    (if m.transition_diversity < 0.4 then 0.3 else 0) +
    (if 0.1 < m.max_repeat_ratio then 0.2 else 0)
  let aiProb := min 1 aiScore
  (aiProb, 1 - aiProb)

/-! ## `EnsembleEngine` (`src/core/ensemble_engine.py`) -/

/-- One entry of the engine's `predictions` list (a successful analyzer). -/
structure PredRec where
  analyzer : String
  ai_prob : ℝ
  human_prob : ℝ
  confidence : ℝ

/-- One entry of `individual_results`: either a success or the neutral
record `{error, 0.5, 0.5, 0.0}` substituted for a failed analyzer. -/
structure IndRec where
  error : Option String
  ai_probability : ℝ
  human_probability : ℝ
  confidence : ℝ

/-- The `ensemble_result` dict returned by `_aggregate_predictions`. -/
structure AggRec where
  ai_probability : ℝ
  human_probability : ℝ
  classification : String
  confidence_level : String
  agreement_score : ℝ
  weighted_confidence : ℝ

/-- The engine's weight dict, insertion-ordered. -/
abbrev Weights := List (String × ℝ)

/-- `self.weights.get(analyzer_name, 0.2)`. -/
noncomputable def weightGet (w : Weights) (name : String) : ℝ :=
  (w.lookup name).getD 0.2

/-- `weight = self.weights.get(pred['analyzer'], 0.2) * pred['confidence']`. -/
noncomputable def weightOf (w : Weights) (p : PredRec) : ℝ :=
  weightGet w p.analyzer * p.confidence

noncomputable def weightSum (w : Weights) (preds : List PredRec) : ℝ :=
  (preds.map (weightOf w)).sum

noncomputable def weightedAiSum (w : Weights) (preds : List PredRec) : ℝ :=
  (preds.map (fun p => p.ai_prob * weightOf w p)).sum

noncomputable def weightedHumanSum (w : Weights) (preds : List PredRec) : ℝ :=
  (preds.map (fun p => p.human_prob * weightOf w p)).sum

noncomputable def confWeightedSum (w : Weights) (preds : List PredRec) : ℝ :=
  (preds.map (fun p => p.confidence * weightGet w p.analyzer)).sum

/-- The aggregated `ai_prob` before rounding: weighted average when the
weight mass is positive, `0.5` otherwise. -/
noncomputable def aggAiProb (w : Weights) (preds : List PredRec) : ℝ :=
  if 0 < weightSum w preds then weightedAiSum w preds / weightSum w preds else 0.5

noncomputable def aggHumanProb (w : Weights) (preds : List PredRec) : ℝ :=
  if 0 < weightSum w preds then weightedHumanSum w preds / weightSum w preds else 0.5

/-- Line 145 of the engine: `1.0 - min(1.0, variance)`. -/
noncomputable def agreementOfVariance (v : ℝ) : ℝ := 1 - min 1 v

/-- Lines 142–147: empty prediction list gives `0.0`; otherwise
`statistics.variance` is called, which raises `StatisticsError` on a
single-element list. -/
noncomputable def agreementScoreE (xs : List ℝ) : Except String ℝ :=
  if xs.isEmpty then .ok 0
  else if xs.length = 1 then
    .error "StatisticsError: variance requires at least two data points"
  else .ok (agreementOfVariance (sampleVar xs))

/-- The value `agreementScoreE` yields on its non-raising paths: `0.0` for
an empty list, `1 - min(1, variance)` otherwise. -/
noncomputable def agreementValue (xs : List ℝ) : ℝ :=
  if xs.isEmpty then 0 else agreementOfVariance (sampleVar xs)

/-- Lines 149–158: the classification label and confidence level from the
aggregated probabilities. -/
noncomputable def classifyPair (ai human : ℝ) : String × String :=
  if 0.6 < ai then ("Probabilmente AI", if 0.75 < ai then "Alta" else "Media")
  else if ai < 0.4 then
    ("Probabilmente Umano", if 0.75 < human then "Alta" else "Media")
  else ("Indeterminato", "Bassa")

/-- `EnsembleEngine._aggregate_predictions`. -/
noncomputable def aggregatePredictions (w : Weights) (preds : List PredRec) :
    Except String AggRec :=
  (agreementScoreE (preds.map (fun p => p.ai_prob))).map (fun agr =>
    let ai := aggAiProb w preds
    let human := aggHumanProb w preds
    let cls := classifyPair ai human
    { ai_probability := roundTo 4 ai
      human_probability := roundTo 4 human
      classification := cls.1
      confidence_level := cls.2
      agreement_score := roundTo 3 agr
      weighted_confidence := roundTo 3 (confWeightedSum w preds) })

/-- `EnsembleEngine._calculate_overall_confidence` (its variance call is
guarded by `len > 1`, unlike the aggregation's). -/
noncomputable def overallConfidence (preds : List PredRec) : ℝ :=
  if preds.isEmpty then 0
  else
    let avgConf := listMean (preds.map (fun p => p.confidence))
    let aiProbs := preds.map (fun p => p.ai_prob)
    let agreement : ℝ :=
      if 1 < aiProbs.length then 1 - min 1 (sampleVar aiProbs) else 1
    let certainty := |listMean aiProbs - 0.5| * 2
    roundTo 3 (min 1 (avgConf * 0.4 + agreement * 0.3 + certainty * 0.3))

/-- An analyzer as the engine consumes it: a name and the `try` body
`metrics = analyze(text); ai, human = predict(metrics);
conf = metrics.get('confidence', 0.5)` as one fallible computation
producing `(ai, human, conf)`. -/
structure AnalyzerI where
  name : String
  runE : PyInput → Except String (ℝ × ℝ × ℝ)

/-- Assemble an analyzer's `runE` from its metric computation, its `predict`
and its confidence field (the `'confidence'` key is always present in every
analyzer's metric dict, so the `.get` default `0.5` is never consulted;
`predict` is total). -/
noncomputable def mkRun {M : Type} (metrics : String → M) (pred : M → ℝ × ℝ)
    (conf : M → ℝ) : PyInput → Except String (ℝ × ℝ × ℝ) :=
  fun t => (analyzeGuard metrics t).map (fun m => ((pred m).1, (pred m).2, conf m))

noncomputable def lexicalAnalyzerI : AnalyzerI :=
  { name := "LexicalAnalyzer",
    runE := mkRun lexicalMetrics lexPredict (fun m => m.confidence) }

noncomputable def syntacticAnalyzerI : AnalyzerI :=
  { name := "SyntacticAnalyzer",
    runE := mkRun syntacticMetrics synPredict (fun m => m.confidence) }

noncomputable def semanticAnalyzerI : AnalyzerI :=
  { name := "SemanticAnalyzer",
    runE := mkRun semanticMetrics semPredict (fun m => m.confidence) }

noncomputable def stylisticAnalyzerI : AnalyzerI :=
  { name := "StylisticAnalyzer",
    runE := mkRun stylisticMetrics styPredict (fun m => m.confidence) }

noncomputable def mlAnalyzerI : AnalyzerI :=
  { name := "MLAnalyzer",
    runE := mkRun mlMetrics mlPredict (fun m => m.confidence) }

/-- The engine's fixed roster (`create_analyzer` × 5). -/
noncomputable def concreteRoster : List AnalyzerI :=
  [lexicalAnalyzerI, syntacticAnalyzerI, semanticAnalyzerI,
   stylisticAnalyzerI, mlAnalyzerI]

/-- `DEFAULT_WEIGHTS` from `src/analyzers/__init__.py`.  (Note the keys are
the registry names, while `analyzer.name` is the class name, so the weighted
aggregation always falls back to the 0.2 default under this map.) -/
noncomputable def defaultWeights : Weights :=
  [("lexical", 0.25), ("syntactic", 0.25), ("semantic", 0.20),
   ("stylistic", 0.15), ("ml", 0.15)]

structure EnsembleOut where
  individual_results : List (String × IndRec)
  ensemble_result : AggRec
  overall_confidence : ℝ
  prediction_method : String
  analyzer_count : ℕ

/-- `EnsembleEngine.analyze`: run every analyzer, catching per-analyzer
exceptions into the neutral record, then aggregate.  The append to
`prediction_history` (line 98) is elided: no claim references the history. -/
noncomputable def ensembleAnalyzeE (roster : List AnalyzerI) (w : Weights)
    (t : PyInput) : Except String EnsembleOut :=
  let individual : List (String × IndRec) := roster.map (fun a => (a.name,
    match a.runE t with
    | .ok r =>
      { error := none, ai_probability := r.1, human_probability := r.2.1,
        confidence := r.2.2 }
    | .error e =>
      { error := some e, ai_probability := 0.5, human_probability := 0.5,
        confidence := 0 }))
  let preds : List PredRec := roster.filterMap (fun a =>
    match a.runE t with
    | .ok r =>
      some { analyzer := a.name, ai_prob := r.1, human_prob := r.2.1,
             confidence := r.2.2 }
    | .error _ => none)
  (aggregatePredictions w preds).map (fun agg =>
    { individual_results := individual
      ensemble_result := agg
      overall_confidence := overallConfidence preds
      prediction_method := "weighted_voting"
      analyzer_count := roster.length })

/-! ## `ConfidenceMetrics.prediction_uncertainty`
(`src/utils/confidence_metrics.py`) -/

structure UncRec where
  prediction_certainty : ℝ
  total_uncertainty : ℝ
  certainty_level : String
  threshold_distance : ℝ
  recommendation : String

noncomputable def getRecommendation (certainty aiProb : ℝ) : String :=
  if 0.8 < certainty ∧ (0.8 < aiProb ∨ aiProb < 0.2) then
    "Prediction molto affidabile. Alta confidenza nella classificazione."
  else if 0.6 < certainty then
    "Prediction affidabile. Classificazione credibile."
  else if 0.4 < certainty then
    "Prediction moderatamente affidabile. Considera fattori aggiuntivi."
  else
    "Prediction incerta. Si raccomanda analisi manuale o dati aggiuntivi."

/-- `prediction_uncertainty`.  The source's error-dict branch for an empty
`individual_results` is unreachable in this pipeline (the engine emits one
record per analyzer and the roster is the fixed five), and its `.get`
defaults are never consulted (the keys are always present), so the function
is total here. -/
noncomputable def predictionUncertainty (out : EnsembleOut) : UncRec :=
  let aiProbs := out.individual_results.map (fun p => p.2.ai_probability)
  let disagreement : ℝ := if 1 < aiProbs.length then popStd aiProbs else 0
  let aiProb := out.ensemble_result.ai_probability
  let thresholdDistance := |aiProb - 0.5| * 2
  let totalUncertainty := listMean
    [disagreement, 1 - thresholdDistance,
     1 - out.ensemble_result.agreement_score,
     1 - out.ensemble_result.weighted_confidence]
  let predictionCertainty := 1 - totalUncertainty
  let level :=
    if 0.8 < predictionCertainty then "Molto Alta"
    else if 0.6 < predictionCertainty then "Alta"
    else if 0.4 < predictionCertainty then "Media"
    else if 0.2 < predictionCertainty then "Bassa"
    else "Molto Bassa"
  { prediction_certainty := roundTo 4 predictionCertainty
    total_uncertainty := roundTo 4 totalUncertainty
    certainty_level := level
    threshold_distance := roundTo 4 thresholdDistance
    recommendation := getRecommendation predictionCertainty aiProb }

/-! ## `TextAnalyzer` facade (`src/core/text_analyzer.py`) -/

structure AnalysisResult where
  classification : String
  ai_probability : ℝ
  human_probability : ℝ
  confidence : ℝ
  certainty_level : String
  recommendation : String
  individual_results : List (String × IndRec)
  ensemble_result : AggRec
  confidence_analysis : UncRec
  input_validation : ValidationOut
  processing_time_ms : ℝ
  timestamp : String

/-- The facade's mutable state.  `cache` is `none` for `enable_cache=False`
(Python `None`) and `some entries` for a dict. -/
structure TAState where
  cache : Option (List ((ℕ × String) × AnalysisResult))
  is_calibrated : Bool
  calibration_threshold : ℝ
  total_analyses : ℕ
  avg_processing_time : ℝ
  avg_confidence : ℝ

/-- Python `s[-n:]`. -/
def strTakeLast (n : ℕ) (s : String) : String :=
  String.mk (s.data.drop (s.data.length - n))

/-- Python `s[:n]`. -/
def strTake (n : ℕ) (s : String) : String := String.mk (s.data.take n)

/-- `text[:100] + text[-100:] if len(text) > 200 else text`. -/
def cacheSample (s : String) : String :=
  if 200 < s.length then strTake 100 s ++ strTakeLast 100 s else s

/-- `_get_cache_key`: `f"{len(text)}:{hash(text_sample)}"`.  Within one
process Python's `hash` is a deterministic function of the sample, so the
key is determined by `(len(text), sample)`; we model the hash by the sample
itself, which preserves exactly the key equalities the source guarantees. -/
def cacheKey (s : String) : ℕ × String := (s.length, cacheSample s)

/-- Python's truthiness of the cache attribute: `None` and the empty dict
are both falsy — `if self.cache:` passes only for a non-empty dict. -/
def cacheTruthy : Option (List ((ℕ × String) × AnalysisResult)) → Bool
  | some (_ :: _) => true
  | _ => false

/-- Python dict assignment: overwrite in place or append in insertion
order. -/
def dictInsert {α β : Type} [DecidableEq α] (k : α) (v : β)
    (l : List (α × β)) : List (α × β) :=
  if (l.lookup k).isSome then
    l.map (fun p => if p.1 = k then (k, v) else p)
  else l ++ [(k, v)]

/-- `TextAnalyzer.analyze` for a string input (the facade's declared
contract).  Cache check first, then validation (`ValueError` when invalid —
its interpolated message is elided), then the ensemble, uncertainty
metrics, optional calibrated re-classification, stats update, cache write.
`processing_time_ms` is modelled as `0` and `timestamp` as `""`. -/
noncomputable def taAnalyze (st : TAState) (s : String) :
    Except String (AnalysisResult × TAState) :=
  let key := cacheKey s
  match (if cacheTruthy st.cache then (st.cache.getD []).lookup key else none) with
  | some r => .ok (r, st)
  | none =>
    let validation := validateText (.str s)
    if validation.valid then
      match ensembleAnalyzeE concreteRoster defaultWeights (.str s) with
      | .error e => .error e
      | .ok out =>
        let unc := predictionUncertainty out
        let classification :=
          if st.is_calibrated then
            (if st.calibration_threshold ≤ out.ensemble_result.ai_probability
             then "Probabilmente AI" else "Probabilmente Umano")
          else out.ensemble_result.classification
        let result : AnalysisResult :=
          { classification := classification
            ai_probability := roundTo 4 out.ensemble_result.ai_probability
            human_probability := roundTo 4 out.ensemble_result.human_probability
            confidence := roundTo 4 unc.prediction_certainty
            certainty_level := unc.certainty_level
            recommendation := unc.recommendation
            individual_results := out.individual_results
            ensemble_result := out.ensemble_result
            confidence_analysis := unc
            input_validation := validation
            processing_time_ms := 0
            timestamp := "" }
        let st1 : TAState :=
          { st with
            total_analyses := st.total_analyses + 1
            avg_processing_time :=
              (st.avg_processing_time * (st.total_analyses : ℝ) +
                result.processing_time_ms) / ((st.total_analyses : ℝ) + 1)
            avg_confidence :=
              (st.avg_confidence * (st.total_analyses : ℝ) +
                result.confidence) / ((st.total_analyses : ℝ) + 1) }
        let st2 : TAState :=
          if cacheTruthy st1.cache then
            { st1 with cache := some (dictInsert key result (st1.cache.getD [])) }
          else st1
        .ok (result, st2)
    else .error "Invalid input"

/-- `TextAnalyzer.__init__` with the default arguments
(`enable_cache=True` gives the empty dict). -/
noncomputable def freshState : TAState :=
  { cache := some []
    is_calibrated := false
    calibration_threshold := 0.5
    total_analyses := 0
    avg_processing_time := 0
    avg_confidence := 0 }

/-- Modelled from the spec: `utils.calibration_engine.CalibrationEngine`,
imported by `TextAnalyzer.calibrate`, is code of this repository that is
not under `src/`.  Per spec §4.4 its `calibrate_on_dataset` either returns
a `CalibrationResult` carrying `best_thresholds: {ai_threshold}`,
`best_f1_score` and `roc_auc`, or raises (missing/unparseable/degenerate
dataset).  Only that observable outcome is modelled; `best_thresholds` is
the optional `ai_threshold` entry read via `.get('ai_threshold', 0.5)`. -/
structure CalibResultRec where
  best_thresholds : Option ℝ
  best_f1_score : ℝ
  roc_auc : ℝ

structure CalibrateRet where
  success : Bool
  threshold : Option ℝ
  f1_score : Option ℝ
  roc_auc : Option ℝ
  error : Option String

/-- `TextAnalyzer.calibrate` (lines 219–257): the whole run is inside
`try/except`; the engine state is mutated only after `calibrate_on_dataset`
has returned, and on an exception the structured failure record is returned
with the state untouched.  `run` is the outcome of the (spec-modelled)
calibration run. -/
noncomputable def taCalibrate (st : TAState) (run : Except String CalibResultRec) :
    CalibrateRet × TAState :=
  match run with
  | .ok res =>
    let thr := res.best_thresholds.getD 0.5
    ({ success := true, threshold := some thr,
       f1_score := some res.best_f1_score, roc_auc := some res.roc_auc,
       error := none },
     { st with is_calibrated := true, calibration_threshold := thr })
  | .error e =>
    ({ success := false, threshold := none, f1_score := none,
       roc_auc := none, error := some e }, st)

/-! ## `EnsembleCalibrator._grid_search_calibration`
(`src/utils/calibrator.py`) -/

/-- One `(true_label, ai_probability)` pair collected from the dataset run
(`1` = ai, `0` = human).  Scores are modelled in `ℚ`: the engine's
probabilities and the `np.arange` grid are idealised as exact rationals. -/
structure GridPred where
  label : ℕ
  score : ℚ
deriving DecidableEq

def tpAt (d : List GridPred) (t : ℚ) : ℕ :=
  (d.filter (fun p => p.label == 1 && decide (t ≤ p.score))).length

def fpAt (d : List GridPred) (t : ℚ) : ℕ :=
  (d.filter (fun p => p.label == 0 && decide (t ≤ p.score))).length

def tnAt (d : List GridPred) (t : ℚ) : ℕ :=
  (d.filter (fun p => p.label == 0 && decide (p.score < t))).length

def fnAt (d : List GridPred) (t : ℚ) : ℕ :=
  (d.filter (fun p => p.label == 1 && decide (p.score < t))).length

/-- `sklearn.metrics.f1_score` with its zero-division default: `0.0`
whenever precision or recall is undefined or both are zero. -/
def precisionAt (d : List GridPred) (t : ℚ) : ℚ :=
  if tpAt d t + fpAt d t = 0 then 0 else (tpAt d t : ℚ) / (tpAt d t + fpAt d t)

def recallAt (d : List GridPred) (t : ℚ) : ℚ :=
  if tpAt d t + fnAt d t = 0 then 0 else (tpAt d t : ℚ) / (tpAt d t + fnAt d t)

def f1At (d : List GridPred) (t : ℚ) : ℚ :=
  let p := precisionAt d t
  let r := recallAt d t
  if p + r = 0 then 0 else 2 * p * r / (p + r)

/-- `accuracy_score` (only consulted on non-empty data). -/
def accAt (d : List GridPred) (t : ℚ) : ℚ :=
  if d.length = 0 then 0 else ((tpAt d t + tnAt d t : ℕ) : ℚ) / d.length

/-- `np.arange(0.1, 0.9, 0.05)`: the sixteen thresholds
`0.1, 0.15, …, 0.85` (exact rationals idealise the float grid). -/
def gridThresholds : List ℚ := (List.range 16).map (fun k => 1/10 + k * (5/100))

/-- The grid-search loop: strict-inequality update `if f1 > best_f1`,
starting from `best_f1 = 0` and an empty `best_thresholds`. -/
def gridLoop (f : ℚ → ℚ) : List ℚ → ℚ → Option ℚ → ℚ × Option ℚ
  | [], b, o => (b, o)
  | t :: ts, b, o =>
    if b < f t then gridLoop f ts (f t) (some t) else gridLoop f ts b o

structure GridOut where
  ai_threshold : ℚ
  best_f1 : ℚ
  best_accuracy : ℚ
  tp : ℕ
  fp : ℕ
  tn : ℕ
  fn : ℕ
deriving DecidableEq

/-- `_grid_search_calibration`.  After the loop the source computes ROC and
PR curves and AUCs with sklearn (lines 138–142); those are library values
referenced by no claim and are not modelled (for single-class data NumPy
propagates NaN through them without raising — `auc`'s monotonicity check
does not fire on NaN differences).  Then line 145's
`best_thresholds['ai_threshold']` raises `KeyError` when no threshold ever
beat the initial `best_f1 = 0` and the dict stayed empty.  On success the
confusion matrix is taken at the winning threshold. -/
def gridSearchCalibration (d : List GridPred) : Except String GridOut :=
  let r := gridLoop (f1At d) gridThresholds 0 none
  match r.2 with
  | none => .error "KeyError: ai_threshold"
  | some t =>
    .ok { ai_threshold := t, best_f1 := r.1, best_accuracy := accAt d t,
          tp := tpAt d t, fp := fpAt d t, tn := tnAt d t, fn := fnAt d t }

/-! ## Concrete values used by the theorems below -/

def isOkE {α : Type} : Except String α → Bool
  | .ok _ => true
  | .error _ => false

/-- The analyzers' too-short error message. -/
def shortMsg : String := "Input text too short (min 10 characters)"

/-- The neutral per-analyzer record `{error, 0.5, 0.5, 0.0}`. -/
noncomputable def neutralRec (e : String) : IndRec :=
  { error := some e, ai_probability := 0.5, human_probability := 0.5,
    confidence := 0 }

noncomputable def neutralIndividual (e : String) : List (String × IndRec) :=
  [("LexicalAnalyzer", neutralRec e), ("SyntacticAnalyzer", neutralRec e),
   ("SemanticAnalyzer", neutralRec e), ("StylisticAnalyzer", neutralRec e),
   ("MLAnalyzer", neutralRec e)]

/-- The aggregation of an empty prediction list. -/
noncomputable def neutralAgg : AggRec :=
  { ai_probability := 0.5, human_probability := 0.5,
    classification := "Indeterminato", confidence_level := "Bassa",
    agreement_score := 0, weighted_confidence := 0 }

/-- The engine's output when every analyzer failed with error `e`. -/
noncomputable def neutralEnsembleOut (e : String) : EnsembleOut :=
  { individual_results := neutralIndividual e, ensemble_result := neutralAgg,
    overall_confidence := 0, prediction_method := "weighted_voting",
    analyzer_count := 5 }

noncomputable def neutralUnc : UncRec :=
  { prediction_certainty := 0.25, total_uncertainty := 0.75,
    certainty_level := "Bassa", threshold_distance := 0,
    recommendation :=
      "Prediction incerta. Si raccomanda analisi manuale o dati aggiuntivi." }

/-- The facade's result on a validator-accepted text whose trimmed length is
below the analyzers' 10-character minimum: all five analyzers fail
internally and the pipeline degrades to the neutral values. -/
noncomputable def neutralResultW (v : ValidationOut) : AnalysisResult :=
  { classification := "Indeterminato", ai_probability := 0.5,
    human_probability := 0.5, confidence := 0.25, certainty_level := "Bassa",
    recommendation :=
      "Prediction incerta. Si raccomanda analisi manuale o dati aggiuntivi.",
    individual_results := neutralIndividual shortMsg,
    ensemble_result := neutralAgg, confidence_analysis := neutralUnc,
    input_validation := v, processing_time_ms := 0, timestamp := "" }

/-- `freshState` after one (neutral) analysis. -/
noncomputable def neutralState : TAState :=
  { cache := some [], is_calibrated := false, calibration_threshold := 0.5,
    total_analyses := 1, avg_processing_time := 0, avg_confidence := 0.25 }

/-- Nine characters after trimming — below the 10-character minimum, but
only two words, which the validator merely warns about. -/
def shortText : String := "abc defg."

def spaces100 : String := String.mk (List.replicate 100 ' ')

/-- 210 characters: 100 spaces, a 10-character middle, 100 spaces. -/
def c10t1 : String := spaces100 ++ " abcdefgh " ++ spaces100

/-- Same length and same first/last 100 characters as `c10t1`, but the
middle carries a single-quote character, which the validator's SQL pattern
check rejects. -/
def c10t2 : String :=
  spaces100 ++ (" " ++ String.mk [Char.ofNat 39] ++ "bcdefgh ") ++ spaces100

/-- All-human calibration data (two samples labelled 0). -/
def allHumanData : List GridPred := [⟨0, 3/10⟩, ⟨0, 7/10⟩]

/-- A separable two-sample dataset for the grid-search witness. -/
def gridWitnessData : List GridPred := [⟨1, 9/10⟩, ⟨0, 1/5⟩]

/-- Four distinct words: every word frequency is 1, so the frequency
standard deviation is 0 and burstiness is `(0-1)/(0+1) = -1`. -/
def lexCounterText : String := "alpha beta gamma delta"

/-! ## Helper lemmas -/

theorem pyRound_intCast (m : ℤ) : pyRound (m : ℝ) = m := by
  unfold pyRound
  rw [Int.fract_intCast, if_neg (by norm_num)]
  rw [show ((m : ℝ) + 1/2) = (1/2 : ℝ) + (m : ℤ) by ring,
    Int.floor_add_int, show ((1 : ℝ)/2) = (0.5 : ℝ) by norm_num]
  norm_num

theorem floor_le_pyRound (x : ℝ) : ⌊x⌋ ≤ pyRound x := by
  unfold pyRound
  by_cases h : Int.fract x = 1/2
  · rw [if_pos h]
    split <;> omega
  · rw [if_neg h]
    exact Int.floor_le_floor (by linarith)

theorem pyRound_le_ceil (x : ℝ) : pyRound x ≤ ⌈x⌉ := by
  unfold pyRound
  by_cases h : Int.fract x = 1/2
  · have hx : (⌊x⌋ : ℝ) + 1/2 = x := by
      have := Int.floor_add_fract x
      rw [h] at this; linarith
    have h2 : ⌊x⌋ + 1 ≤ ⌈x⌉ := by
      have hxc := Int.le_ceil x
      have hlt : (⌊x⌋ : ℝ) < (⌈x⌉ : ℝ) := by linarith
      exact Int.add_one_le_iff.mpr (by exact_mod_cast hlt)
    rw [if_pos h]
    split <;> omega
  · rw [if_neg h]
    have hlt : x + 1/2 < ((⌈x⌉ + 1 : ℤ) : ℝ) := by
      push_cast
      have := Int.le_ceil x
      linarith
    have := Int.floor_lt.mpr hlt
    omega

/-- `roundTo` stays between any integer bounds that bound the input. -/
theorem roundTo_bounds (a b : ℤ) {x : ℝ} (n : ℕ)
    (ha : (a : ℝ) ≤ x) (hb : x ≤ (b : ℝ)) :
    (a : ℝ) ≤ roundTo n x ∧ roundTo n x ≤ (b : ℝ) := by
  have hpow : (0 : ℝ) < 10 ^ n := by positivity
  have hl : (a * 10 ^ n : ℤ) ≤ pyRound (x * 10 ^ n) := by
    refine le_trans ?_ (floor_le_pyRound _)
    have : ((a * 10 ^ n : ℤ) : ℝ) ≤ x * 10 ^ n := by
      push_cast
      nlinarith
    exact Int.le_floor.mpr this
  have hu : pyRound (x * 10 ^ n) ≤ (b * 10 ^ n : ℤ) := by
    refine le_trans (pyRound_le_ceil _) ?_
    have : x * 10 ^ n ≤ ((b * 10 ^ n : ℤ) : ℝ) := by
      push_cast
      nlinarith
    exact Int.ceil_le.mpr this
  constructor
  · rw [roundTo, le_div_iff₀ hpow]
    calc (a : ℝ) * 10 ^ n = ((a * 10 ^ n : ℤ) : ℝ) := by push_cast; ring
    _ ≤ _ := by exact_mod_cast hl
  · rw [roundTo, div_le_iff₀ hpow]
    calc (pyRound (x * 10 ^ n) : ℝ) ≤ ((b * 10 ^ n : ℤ) : ℝ) := by exact_mod_cast hu
    _ = (b : ℝ) * 10 ^ n := by push_cast; ring

theorem roundTo_nonneg {x : ℝ} (n : ℕ) (h : 0 ≤ x) : 0 ≤ roundTo n x := by
  have hb : x ≤ ((⌈x⌉ + 1 : ℤ) : ℝ) := by
    push_cast
    have := Int.le_ceil x
    linarith
  have := (roundTo_bounds 0 (⌈x⌉ + 1) n (by exact_mod_cast h) hb).1
  exact_mod_cast this

theorem roundTo_le_one {x : ℝ} (n : ℕ) (h : x ≤ 1) : roundTo n x ≤ 1 := by
  have ha : ((⌊x⌋ - 1 : ℤ) : ℝ) ≤ x := by
    push_cast
    have := Int.floor_le x
    linarith
  have := (roundTo_bounds (⌊x⌋ - 1) 1 n ha (by exact_mod_cast h)).2
  exact_mod_cast this

theorem roundTo_mem_unit {x : ℝ} (n : ℕ) (h0 : 0 ≤ x) (h1 : x ≤ 1) :
    0 ≤ roundTo n x ∧ roundTo n x ≤ 1 :=
  ⟨roundTo_nonneg n h0, roundTo_le_one n h1⟩

/-- `roundTo n` fixes any value that is an exact multiple of `10⁻ⁿ`. -/
theorem roundTo_eq_self {n : ℕ} {x : ℝ} (k : ℤ) (h : x * 10 ^ n = (k : ℝ)) :
    roundTo n x = x := by
  have hpow : (0 : ℝ) < 10 ^ n := by positivity
  rw [roundTo, h, pyRound_intCast, ← h]
  field_simp

theorem sq_dev_sum_nonneg (xs : List ℝ) (m : ℝ) :
    0 ≤ (xs.map (fun x => (x - m) ^ 2)).sum := by
  apply List.sum_nonneg
  intro y hy
  obtain ⟨x, _, rfl⟩ := List.mem_map.mp hy
  positivity

theorem sampleVar_nonneg (xs : List ℝ) : 0 ≤ sampleVar xs := by
  unfold sampleVar
  apply div_nonneg (sq_dev_sum_nonneg xs _)
  positivity

theorem popVar_nonneg (xs : List ℝ) : 0 ≤ popVar xs := by
  unfold popVar
  apply div_nonneg (sq_dev_sum_nonneg xs _)
  positivity

theorem sampleStd_nonneg (xs : List ℝ) : 0 ≤ sampleStd xs := Real.sqrt_nonneg _

theorem popStd_nonneg (xs : List ℝ) : 0 ≤ popStd xs := Real.sqrt_nonneg _

theorem listMean_replicate {n : ℕ} (hn : n ≠ 0) (c : ℝ) :
    listMean (List.replicate n c) = c := by
  unfold listMean
  rw [List.sum_replicate, List.length_replicate]
  have : (n : ℝ) ≠ 0 := Nat.cast_ne_zero.mpr hn
  field_simp

theorem sampleVar_replicate (n : ℕ) (c : ℝ) :
    sampleVar (List.replicate n c) = 0 := by
  rcases Nat.eq_zero_or_pos n with h | h
  · subst h; simp [sampleVar, listMean]
  · unfold sampleVar
    rw [listMean_replicate (Nat.pos_iff_ne_zero.mp h), List.map_replicate]
    simp

theorem sampleStd_replicate (n : ℕ) (c : ℝ) :
    sampleStd (List.replicate n c) = 0 := by
  rw [sampleStd, sampleVar_replicate, Real.sqrt_zero]

theorem pyDedup_length_le {α : Type} [DecidableEq α] (l : List α) :
    (pyDedup l).length ≤ l.length := by
  have main : ∀ (n : ℕ) (l : List α), l.length ≤ n →
      (pyDedup l).length ≤ l.length := by
    intro n
    induction n with
    | zero =>
      intro l hl
      match l with
      | [] => simp [pyDedup]
      | x :: xs => simp at hl
    | succ n ih =>
      intro l hl
      match l with
      | [] => simp [pyDedup]
      | x :: xs =>
        rw [pyDedup]
        simp only [List.length_cons] at hl ⊢
        have h2 := List.length_filter_le (fun y => y ≠ x) xs
        have h1 := ih (xs.filter (fun y => y ≠ x)) (by omega)
        omega
  exact main l.length l le_rfl

/-- A quotient of natural counts with numerator bounded by the denominator
lies in the unit interval (including `b = 0`, where real division by zero
yields `0`). -/
theorem natDiv_mem_unit {a b : ℕ} (h : a ≤ b) :
    0 ≤ (a : ℝ) / b ∧ (a : ℝ) / b ≤ 1 := by
  refine ⟨by positivity, ?_⟩
  rcases Nat.eq_zero_or_pos b with h0 | h0
  · subst h0
    have ha : a = 0 := Nat.le_zero.mp h
    subst ha
    norm_num
  · exact (div_le_one (by exact_mod_cast h0)).mpr (by exact_mod_cast h)

theorem freqValues_length_le {α : Type} [DecidableEq α] (l : List α) :
    (freqValues l).length ≤ l.length := by
  rw [freqValues, freqCounts, List.length_map, List.length_map]
  exact pyDedup_length_le l

theorem lexTtr_mem_unit (s : String) : 0 ≤ lexTtr s ∧ lexTtr s ≤ 1 := by
  unfold lexTtr
  by_cases h : (lexWords s).isEmpty
  · rw [if_pos h]; norm_num
  · rw [if_neg h]; exact natDiv_mem_unit (pyDedup_length_le _)

theorem lexComplexRatio_mem_unit (s : String) :
    0 ≤ lexComplexRatio s ∧ lexComplexRatio s ≤ 1 := by
  unfold lexComplexRatio
  by_cases h : (lexWords s).isEmpty
  · rw [if_pos h]; norm_num
  · rw [if_neg h]; exact natDiv_mem_unit (List.length_filter_le _ _)

theorem lexLongRatio_mem_unit (s : String) :
    0 ≤ lexLongRatio s ∧ lexLongRatio s ≤ 1 := by
  unfold lexLongRatio
  by_cases h : (lexWords s).isEmpty
  · rw [if_pos h]; norm_num
  · rw [if_neg h]; exact natDiv_mem_unit (List.length_filter_le _ _)

theorem lexStdFreq_nonneg (s : String) : 0 ≤ lexStdFreq s := by
  unfold lexStdFreq
  by_cases h : 1 < (lexFrequencies s).length
  · rw [if_pos h]; exact sampleStd_nonneg _
  · rw [if_neg h]

theorem lexBurstiness_bounds (s : String) :
    -1 ≤ lexBurstiness s ∧ lexBurstiness s ≤ 1 := by
  unfold lexBurstiness
  by_cases h : 0 < lexMeanFreq s
  · rw [if_pos h]
    have hs := lexStdFreq_nonneg s
    have hpos : 0 < lexStdFreq s + lexMeanFreq s := by linarith
    constructor
    · rw [le_div_iff₀ hpos]
      linarith
    · rw [div_le_one hpos]
      linarith
  · rw [if_neg h]
    norm_num

theorem lexConfidence_mem_unit (s : String) :
    0 ≤ lexConfidence s ∧ lexConfidence s ≤ 1 := by
  unfold lexConfidence
  constructor
  · exact le_min (by norm_num) (by positivity)
  · exact le_trans (min_le_left _ _) (by norm_num)

theorem synVariability_nonneg (s : String) : 0 ≤ synVariability s := by
  unfold synVariability
  by_cases h : 1 < (synLengths s).length
  · rw [if_pos h]
    by_cases hm : 0 < listMean (synLengthsR s)
    · rw [if_pos hm]
      exact div_nonneg (sampleStd_nonneg _) hm.le
    · rw [if_neg hm]
  · rw [if_neg h]

theorem synConfidence_mem_unit (s : String) :
    0 ≤ synConfidence s ∧ synConfidence s ≤ 1 := by
  have hv := synVariability_nonneg s
  unfold synConfidence
  constructor
  · exact le_min (by norm_num) (by nlinarith)
  · exact le_trans (min_le_left _ _) (by norm_num)

theorem synRepetitions_le (s : String) :
    synRepetitions s ≤ (synPatternScores s).length :=
  le_trans (List.length_filter_le _ _) (pyDedup_length_le _)

theorem synPatternRep_mem_unit (s : String) :
    0 ≤ synPatternRep s ∧ synPatternRep s ≤ 1 := by
  unfold synPatternRep
  by_cases h : (synPatternScores s).isEmpty
  · rw [if_pos h]; norm_num
  · rw [if_neg h]; exact natDiv_mem_unit (synRepetitions_le s)

theorem semConceptualDensity_mem_unit (s : String) :
    0 ≤ semConceptualDensity s ∧ semConceptualDensity s ≤ 1 := by
  unfold semConceptualDensity
  by_cases h : (semWords s).isEmpty
  · rw [if_pos h]; norm_num
  · rw [if_neg h]; exact natDiv_mem_unit (List.length_filter_le _ _)

theorem semConfidence_mem_unit (s : String) :
    0 ≤ semConfidence s ∧ semConfidence s ≤ 1 := by
  have hd := (semConceptualDensity_mem_unit s).1
  unfold semConfidence
  constructor
  · exact le_min (by norm_num) (by nlinarith)
  · exact le_trans (min_le_left _ _) (by norm_num)

theorem styPunctVariability_nonneg (s : String) : 0 ≤ styPunctVariability s := by
  unfold styPunctVariability
  by_cases h : 1 < (styPps s).length
  · rw [if_pos h]; exact sampleStd_nonneg _
  · rw [if_neg h]

theorem styConfidence_mem_unit (s : String) :
    0 ≤ styConfidence s ∧ styConfidence s ≤ 1 := by
  have hv := styPunctVariability_nonneg s
  unfold styConfidence
  constructor
  · exact le_min (by norm_num) (by nlinarith)
  · exact le_trans (min_le_left _ _) (by norm_num)

/-- Each summand `-p·log2(p)` of the entropy is nonnegative when the total
is the sum of the counts, since every `p` then lies in `[0,1]`. -/
theorem entropyOf_sum_nonneg (counts : List ℕ) :
    0 ≤ entropyOf counts counts.sum := by
  unfold entropyOf
  apply List.sum_nonneg
  intro y hy
  obtain ⟨c, hc, rfl⟩ := List.mem_map.mp hy
  dsimp only
  by_cases hp : 0 < ((c : ℝ) / counts.sum)
  · rw [if_pos hp]
    have hcs : c ≤ counts.sum := List.le_sum_of_mem hc
    have hpos : 0 < counts.sum := by
      by_contra h0
      push_neg at h0
      have hz : counts.sum = 0 := Nat.le_zero.mp h0
      rw [hz] at hp
      norm_num at hp
    have hle : (c : ℝ) / counts.sum ≤ 1 :=
      (div_le_one (by exact_mod_cast hpos)).mpr (by exact_mod_cast hcs)
    have hlog : Real.logb 2 ((c : ℝ) / counts.sum) ≤ 0 :=
      Real.logb_nonpos (by norm_num) hp.le hle
    rw [neg_nonneg]
    exact mul_nonpos_of_nonneg_of_nonpos hp.le hlog
  · rw [if_neg hp]

theorem mlNormalizedEntropy_nonneg (s : String) : 0 ≤ mlNormalizedEntropy s := by
  unfold mlNormalizedEntropy
  by_cases h : 0 < mlMaxEntropy s
  · rw [if_pos h]
    exact div_nonneg (entropyOf_sum_nonneg _) h.le
  · rw [if_neg h]
    norm_num

theorem mlTransitionDiversity_mem_unit (s : String) :
    0 ≤ mlTransitionDiversity s ∧ mlTransitionDiversity s ≤ 1 := by
  unfold mlTransitionDiversity
  by_cases h : 0 < (mlWordPairs s).length
  · rw [if_pos h]; exact natDiv_mem_unit (freqValues_length_le _)
  · rw [if_neg h]; norm_num

theorem mlCharTransitionDiversity_mem_unit (s : String) :
    0 ≤ mlCharTransitionDiversity s ∧ mlCharTransitionDiversity s ≤ 1 := by
  unfold mlCharTransitionDiversity
  by_cases h : (mlCharPairs s).isEmpty
  · rw [if_pos h]; norm_num
  · rw [if_neg h]; exact natDiv_mem_unit (freqValues_length_le _)

theorem mlComplexity_nonneg (s : String) : 0 ≤ mlComplexity s := by
  have h1 := mlNormalizedEntropy_nonneg s
  have h2 := (mlTransitionDiversity_mem_unit s).1
  have h3 := (mlCharTransitionDiversity_mem_unit s).1
  unfold mlComplexity
  linarith

theorem mlConfidence_mem_unit (s : String) :
    0 ≤ mlConfidence s ∧ mlConfidence s ≤ 1 := by
  have hc := mlComplexity_nonneg s
  unfold mlConfidence
  constructor
  · exact le_min (by norm_num) (by nlinarith)
  · exact le_trans (min_le_left _ _) (by norm_num)

theorem mkRun_error_iff {M : Type} (metrics : String → M) (pred : M → ℝ × ℝ)
    (conf : M → ℝ) (t : PyInput) (e : String) :
    mkRun metrics pred conf t = .error e ↔ validateInputErr t = some e := by
  cases t with
  | nonStr => simp [mkRun, analyzeGuard, validateInputErr, Except.map]
  | str s =>
    simp only [mkRun, validateInputErr]
    cases h : strValidateErr s with
    | none => simp [analyzeGuard, h, Except.map]
    | some e2 => simp [analyzeGuard, h, Except.map]

theorem roster_run_error_iff {a : AnalyzerI} (ha : a ∈ concreteRoster)
    (t : PyInput) (e : String) :
    a.runE t = .error e ↔ validateInputErr t = some e := by
  simp only [concreteRoster, List.mem_cons, List.not_mem_nil, or_false] at ha
  rcases ha with rfl | rfl | rfl | rfl | rfl
  · exact mkRun_error_iff lexicalMetrics lexPredict _ t e
  · exact mkRun_error_iff syntacticMetrics synPredict _ t e
  · exact mkRun_error_iff semanticMetrics semPredict _ t e
  · exact mkRun_error_iff stylisticMetrics styPredict _ t e
  · exact mkRun_error_iff mlMetrics mlPredict _ t e

theorem aggregate_nil (w : Weights) :
    aggregatePredictions w [] = .ok neutralAgg := by
  have hws : weightSum w [] = 0 := by simp [weightSum]
  have hai : aggAiProb w [] = 0.5 := by
    rw [aggAiProb, hws, if_neg (by norm_num)]
  have hhu : aggHumanProb w [] = 0.5 := by
    rw [aggHumanProb, hws, if_neg (by norm_num)]
  have hr4 : roundTo 4 (0.5 : ℝ) = 0.5 := roundTo_eq_self 5000 (by norm_num)
  have hr3 : roundTo 3 (0 : ℝ) = 0 := roundTo_eq_self 0 (by norm_num)
  have hcls : classifyPair (0.5 : ℝ) 0.5 = ("Indeterminato", "Bassa") := by
    rw [classifyPair, if_neg (by norm_num), if_neg (by norm_num)]
  have hcw : confWeightedSum w [] = 0 := by simp [confWeightedSum]
  have hagr : agreementScoreE ([] : List ℝ) = .ok 0 := by
    simp [agreementScoreE]
  unfold aggregatePredictions
  simp only [List.map_nil, hagr, Except.map]
  rw [neutralAgg]
  simp only [hai, hhu, hcls, hcw, hr4, hr3]

theorem overallConfidence_nil : overallConfidence [] = 0 := by
  simp [overallConfidence]

theorem ensembleAnalyzeE_neutral (t : PyInput) (e : String)
    (h : validateInputErr t = some e) :
    ensembleAnalyzeE concreteRoster defaultWeights t = .ok (neutralEnsembleOut e) := by
  have h1 : lexicalAnalyzerI.runE t = .error e :=
    (mkRun_error_iff lexicalMetrics lexPredict _ t e).mpr h
  have h2 : syntacticAnalyzerI.runE t = .error e :=
    (mkRun_error_iff syntacticMetrics synPredict _ t e).mpr h
  have h3 : semanticAnalyzerI.runE t = .error e :=
    (mkRun_error_iff semanticMetrics semPredict _ t e).mpr h
  have h4 : stylisticAnalyzerI.runE t = .error e :=
    (mkRun_error_iff stylisticMetrics styPredict _ t e).mpr h
  have h5 : mlAnalyzerI.runE t = .error e :=
    (mkRun_error_iff mlMetrics mlPredict _ t e).mpr h
  unfold ensembleAnalyzeE
  simp only [concreteRoster, List.map_cons, List.map_nil, List.filterMap_cons,
    List.filterMap_nil, h1, h2, h3, h4, h5, aggregate_nil, Except.map,
    overallConfidence_nil]
  rfl

theorem popVar_replicate (n : ℕ) (c : ℝ) :
    popVar (List.replicate n c) = 0 := by
  rcases Nat.eq_zero_or_pos n with h | h
  · subst h; simp [popVar, listMean]
  · unfold popVar
    rw [listMean_replicate (Nat.pos_iff_ne_zero.mp h), List.map_replicate]
    simp

theorem popStd_replicate (n : ℕ) (c : ℝ) :
    popStd (List.replicate n c) = 0 := by
  rw [popStd, popVar_replicate, Real.sqrt_zero]

theorem predictionUncertainty_neutral (e : String) :
    predictionUncertainty (neutralEnsembleOut e) = neutralUnc := by
  unfold predictionUncertainty neutralEnsembleOut neutralIndividual neutralRec
    neutralAgg
  simp only [List.map_cons, List.map_nil, List.length_cons, List.length_nil]
  rw [if_pos (by norm_num)]
  have hstd : popStd [(0.5 : ℝ), 0.5, 0.5, 0.5, 0.5] = 0 := by
    have h5 : ([(0.5 : ℝ), 0.5, 0.5, 0.5, 0.5]) = List.replicate 5 (0.5 : ℝ) := rfl
    rw [h5, popStd_replicate]
  rw [hstd]
  have hmean : listMean [(0 : ℝ), 1 - |(0.5 : ℝ) - 0.5| * 2, 1 - 0, 1 - 0] = 3/4 := by
    simp [listMean]
    norm_num
  rw [hmean]
  have hr4q : roundTo 4 (1 - (3 : ℝ)/4) = 0.25 := by
    rw [show (1 - (3 : ℝ)/4) = (0.25 : ℝ) by norm_num]
    exact roundTo_eq_self 2500 (by norm_num)
  have hr4t : roundTo 4 ((3 : ℝ)/4) = 0.75 := by
    rw [show ((3 : ℝ)/4) = (0.75 : ℝ) by norm_num]
    exact roundTo_eq_self 7500 (by norm_num)
  have hr4d : roundTo 4 (|(0.5 : ℝ) - 0.5| * 2) = 0 := by
    rw [show (|(0.5 : ℝ) - 0.5| * 2) = (0 : ℝ) by norm_num]
    exact roundTo_eq_self 0 (by norm_num)
  rw [neutralUnc, UncRec.mk.injEq]
  refine ⟨hr4q, hr4t, ?_, hr4d, ?_⟩
  · rw [if_neg (by norm_num), if_neg (by norm_num), if_neg (by norm_num),
      if_pos (by norm_num)]
  · rw [getRecommendation, if_neg (by norm_num), if_neg (by norm_num),
      if_neg (by norm_num)]

theorem roundTo_half : roundTo 4 (0.5 : ℝ) = 0.5 :=
  roundTo_eq_self 5000 (by norm_num)

theorem roundTo_quarter : roundTo 4 (0.25 : ℝ) = 0.25 :=
  roundTo_eq_self 2500 (by norm_num)

theorem taAnalyze_neutral_eval (s : String) (v : ValidationOut)
    (hvalid : validateText (.str s) = v) (hvv : v.valid = true)
    (hshort : strValidateErr s = some shortMsg) :
    taAnalyze freshState s = .ok (neutralResultW v, neutralState) := by
  have hens := ensembleAnalyzeE_neutral (.str s) shortMsg
    (by simpa [validateInputErr] using hshort)
  unfold taAnalyze
  have hct : cacheTruthy freshState.cache = false := rfl
  rw [hct]
  simp only [if_false, Bool.false_eq_true, hvalid, hvv, if_true, hens,
    predictionUncertainty_neutral]
  have hcal : freshState.is_calibrated = false := rfl
  rw [hcal]
  simp only [Bool.false_eq_true, if_false]
  have hres : ({ classification := (neutralEnsembleOut shortMsg).ensemble_result.classification
                 ai_probability := roundTo 4 (neutralEnsembleOut shortMsg).ensemble_result.ai_probability
                 human_probability := roundTo 4 (neutralEnsembleOut shortMsg).ensemble_result.human_probability
                 confidence := roundTo 4 neutralUnc.prediction_certainty
                 certainty_level := neutralUnc.certainty_level
                 recommendation := neutralUnc.recommendation
                 individual_results := (neutralEnsembleOut shortMsg).individual_results
                 ensemble_result := (neutralEnsembleOut shortMsg).ensemble_result
                 confidence_analysis := neutralUnc
                 input_validation := v
                 processing_time_ms := 0
                 timestamp := "" } : AnalysisResult) = neutralResultW v := by
    rw [neutralResultW, AnalysisResult.mk.injEq]
    refine ⟨rfl, ?_, ?_, ?_, rfl, rfl, rfl, rfl, rfl, rfl, rfl, rfl⟩
    · exact roundTo_half
    · exact roundTo_half
    · exact roundTo_quarter
  rw [hres]
  simp only [hct, Bool.false_eq_true, if_false]
  congr 1
  congr 1
  rw [neutralState, TAState.mk.injEq]
  refine ⟨rfl, rfl, rfl, rfl, ?_, ?_⟩
  · norm_num [freshState]
  · rw [show neutralUnc.prediction_certainty = (0.25 : ℝ) from rfl, roundTo_quarter]
    norm_num [freshState]

theorem exceptMap_eq_ok {α β : Type} (f : α → β) (e : Except String α) (b : β) :
    e.map f = .ok b ↔ ∃ a, e = .ok a ∧ f a = b := by
  cases e with
  | error e => simp [Except.map]
  | ok a => simp [Except.map]

theorem agreementScoreE_ok (xs : List ℝ) (h : xs.length ≠ 1) :
    agreementScoreE xs = .ok (agreementValue xs) := by
  unfold agreementScoreE agreementValue
  cases xs with
  | nil => simp
  | cons x xs =>
    have hxs : xs ≠ [] := by
      intro hcon
      subst hcon
      simp at h
    have h1 : ¬(x :: xs).isEmpty = true := by simp
    have h2 : (x :: xs).length ≠ 1 := h
    rw [if_neg h1, if_neg h2, if_neg h1]

theorem aggregatePredictions_ok (w : Weights) (preds : List PredRec)
    (h : preds.length ≠ 1) :
    aggregatePredictions w preds = .ok
      { ai_probability := roundTo 4 (aggAiProb w preds)
        human_probability := roundTo 4 (aggHumanProb w preds)
        classification := (classifyPair (aggAiProb w preds) (aggHumanProb w preds)).1
        confidence_level := (classifyPair (aggAiProb w preds) (aggHumanProb w preds)).2
        agreement_score := roundTo 3 (agreementValue (preds.map (fun p => p.ai_prob)))
        weighted_confidence := roundTo 3 (confWeightedSum w preds) } := by
  unfold aggregatePredictions
  rw [agreementScoreE_ok _ (by simpa using h)]
  rfl

theorem aggregate_ok_unique (w : Weights) (preds : List PredRec) (r : AggRec)
    (h : aggregatePredictions w preds = .ok r) :
    preds.length ≠ 1 ∧
    r = { ai_probability := roundTo 4 (aggAiProb w preds)
          human_probability := roundTo 4 (aggHumanProb w preds)
          classification := (classifyPair (aggAiProb w preds) (aggHumanProb w preds)).1
          confidence_level := (classifyPair (aggAiProb w preds) (aggHumanProb w preds)).2
          agreement_score := roundTo 3 (agreementValue (preds.map (fun p => p.ai_prob)))
          weighted_confidence := roundTo 3 (confWeightedSum w preds) } := by
  have hlen : preds.length ≠ 1 := by
    intro hcon
    unfold aggregatePredictions agreementScoreE at h
    have hne : ¬(preds.map (fun p => p.ai_prob)).isEmpty = true := by
      simp [List.isEmpty_iff, List.map_eq_nil_iff]
      intro hnil
      rw [hnil] at hcon
      simp at hcon
    rw [if_neg hne, if_pos (by simpa using hcon)] at h
    simp [Except.map] at h
  refine ⟨hlen, ?_⟩
  have := aggregatePredictions_ok w preds hlen
  rw [this] at h
  exact (Except.ok.injEq _ _).mp h.symm

/-- C3: for every prediction list reaching the aggregation (the engine
raises on a singleton list before producing any result, hence the
`length ≠ 1` hypothesis), the stored `ai_probability` is the 4-digit
rounding of `Σ(ai_prob_i·w_i)/Σ(w_i)` with
`w_i = weights.get(name_i, 0.2) · confidence_i`, and both probabilities
fall back to `0.5` when the weight mass is zero. -/
theorem ensemble_weighted_average (w : Weights) (preds : List PredRec)
    (h : preds.length ≠ 1) :
    ∃ r, aggregatePredictions w preds = .ok r ∧
      r.ai_probability = roundTo 4 (aggAiProb w preds) ∧
      r.human_probability = roundTo 4 (aggHumanProb w preds) ∧
      (0 < weightSum w preds →
        aggAiProb w preds = weightedAiSum w preds / weightSum w preds ∧
        aggHumanProb w preds = weightedHumanSum w preds / weightSum w preds) ∧
      (weightSum w preds = 0 →
        r.ai_probability = 0.5 ∧ r.human_probability = 0.5) := by
  refine ⟨_, aggregatePredictions_ok w preds h, rfl, rfl, ?_, ?_⟩
  · intro hpos
    rw [aggAiProb, if_pos hpos, aggHumanProb, if_pos hpos]
    exact ⟨rfl, rfl⟩
  · intro hzero
    have hai : aggAiProb w preds = 0.5 := by
      rw [aggAiProb, hzero, if_neg (by norm_num)]
    have hhu : aggHumanProb w preds = 0.5 := by
      rw [aggHumanProb, hzero, if_neg (by norm_num)]
    constructor
    · show roundTo 4 (aggAiProb w preds) = 0.5
      rw [hai, roundTo_half]
    · show roundTo 4 (aggHumanProb w preds) = 0.5
      rw [hhu, roundTo_half]

theorem ensemble_weighted_average_witness :
    (([] : List PredRec).length ≠ 1) ∧
    (∃ r, aggregatePredictions defaultWeights [] = .ok r ∧
      r.ai_probability = roundTo 4 (aggAiProb defaultWeights []) ∧
      r.human_probability = roundTo 4 (aggHumanProb defaultWeights []) ∧
      (0 < weightSum defaultWeights [] →
        aggAiProb defaultWeights [] =
          weightedAiSum defaultWeights [] / weightSum defaultWeights [] ∧
        aggHumanProb defaultWeights [] =
          weightedHumanSum defaultWeights [] / weightSum defaultWeights []) ∧
      (weightSum defaultWeights [] = 0 →
        r.ai_probability = 0.5 ∧ r.human_probability = 0.5)) :=
  ⟨by decide, ensemble_weighted_average defaultWeights [] (by decide)⟩

/-- C4: the classification cutoffs.  `p > 0.6` yields "Probabilmente AI"
with level "Alta" exactly when `p > 0.75`; `p < 0.4` yields
"Probabilmente Umano" with the symmetric rule on the aggregated human
probability; the band `[0.4, 0.6]` yields "Indeterminato"/"Bassa"; and the
ensemble record's label fields are exactly this rule applied to the
aggregated probabilities. -/
theorem classification_cutoffs (ai human : ℝ) :
    (0.6 < ai → classifyPair ai human =
      ("Probabilmente AI", if 0.75 < ai then "Alta" else "Media")) ∧
    (ai < 0.4 → classifyPair ai human =
      ("Probabilmente Umano", if 0.75 < human then "Alta" else "Media")) ∧
    (0.4 ≤ ai → ai ≤ 0.6 → classifyPair ai human = ("Indeterminato", "Bassa")) ∧
    (∀ (w : Weights) (preds : List PredRec) (r : AggRec),
      aggregatePredictions w preds = .ok r →
      r.classification = (classifyPair (aggAiProb w preds) (aggHumanProb w preds)).1 ∧
      r.confidence_level = (classifyPair (aggAiProb w preds) (aggHumanProb w preds)).2) := by
  refine ⟨?_, ?_, ?_, ?_⟩
  · intro hai
    rw [classifyPair, if_pos hai]
  · intro hai
    rw [classifyPair, if_neg (by linarith), if_pos hai]
  · intro h1 h2
    rw [classifyPair, if_neg (by linarith), if_neg (by linarith)]
  · intro w preds r h
    rw [(aggregate_ok_unique w preds r h).2]
    exact ⟨rfl, rfl⟩

theorem classification_cutoffs_witness :
    ((0.6 : ℝ) < 0.8 ∧ (0.75 : ℝ) < 0.8) ∧
    classifyPair 0.8 0.2 = ("Probabilmente AI", "Alta") := by
  refine ⟨⟨by norm_num, by norm_num⟩, ?_⟩
  have h := (classification_cutoffs 0.8 0.2).1 (by norm_num)
  rw [if_pos (by norm_num)] at h
  exact h

/-- C5: the agreement score is `1 - min(1, variance(ai_probs))` (stored
with 3-digit rounding); it is exactly `1.0` when all five analyzers report
the identical probability, and it is antitone in the variance. -/
theorem agreement_score_spec :
    (∀ xs : List ℝ, 2 ≤ xs.length →
      agreementScoreE xs = .ok (agreementOfVariance (sampleVar xs))) ∧
    (∀ c : ℝ, agreementScoreE [c, c, c, c, c] = .ok 1) ∧
    (∀ v1 v2 : ℝ, v1 ≤ v2 → agreementOfVariance v2 ≤ agreementOfVariance v1) ∧
    (∀ (w : Weights) (preds : List PredRec) (r : AggRec), 2 ≤ preds.length →
      aggregatePredictions w preds = .ok r →
      r.agreement_score =
        roundTo 3 (agreementOfVariance (sampleVar (preds.map (fun p => p.ai_prob))))) ∧
    (∀ (w : Weights) (preds : List PredRec) (r : AggRec) (c : ℝ),
      preds.map (fun p => p.ai_prob) = [c, c, c, c, c] →
      aggregatePredictions w preds = .ok r → r.agreement_score = 1) := by
  have hok : ∀ xs : List ℝ, 2 ≤ xs.length →
      agreementScoreE xs = .ok (agreementOfVariance (sampleVar xs)) := by
    intro xs hlen
    rw [agreementScoreE_ok xs (by omega)]
    unfold agreementValue
    rw [if_neg (by
      simp [List.isEmpty_iff]
      intro hnil
      rw [hnil] at hlen
      simp at hlen)]
  have hone : ∀ c : ℝ, agreementOfVariance (sampleVar [c, c, c, c, c]) = 1 := by
    intro c
    have h5 : ([c, c, c, c, c] : List ℝ) = List.replicate 5 c := rfl
    rw [h5, sampleVar_replicate, agreementOfVariance]
    norm_num
  refine ⟨hok, ?_, ?_, ?_, ?_⟩
  · intro c
    rw [hok [c, c, c, c, c] (by simp), hone]
  · intro v1 v2 h
    unfold agreementOfVariance
    have := min_le_min (le_refl (1 : ℝ)) h
    linarith
  · intro w preds r hlen h
    rw [(aggregate_ok_unique w preds r h).2]
    show roundTo 3 (agreementValue (preds.map (fun p => p.ai_prob))) = _
    unfold agreementValue
    rw [if_neg (by
      simp [List.isEmpty_iff, List.map_eq_nil_iff]
      intro hnil
      rw [hnil] at hlen
      simp at hlen)]
  · intro w preds r c hmap h
    have hlen : 2 ≤ preds.length := by
      have := congrArg List.length hmap
      simp at this
      omega
    rw [(aggregate_ok_unique w preds r h).2]
    show roundTo 3 (agreementValue (preds.map (fun p => p.ai_prob))) = 1
    rw [hmap]
    unfold agreementValue
    rw [if_neg (by simp), hone]
    exact roundTo_eq_self 1000 (by norm_num)

theorem agreement_score_spec_witness :
    2 ≤ ([(0 : ℝ), 1]).length ∧
    agreementScoreE [(0 : ℝ), 1] = .ok (agreementOfVariance (sampleVar [(0 : ℝ), 1])) :=
  ⟨by simp, agreement_score_spec.1 [(0 : ℝ), 1] (by simp)⟩

/-- C9: the facade's `calibrate` returns `{success: true, threshold,
f1_score, roc_auc}` and installs the threshold when the (spec-modelled)
calibration run returns a result, and returns `{success: false, error}`
with the engine state untouched when the run raises — the threshold is
updated only after the full run has succeeded. -/
theorem calibrate_contract :
    (∀ (st : TAState) (res : CalibResultRec),
      taCalibrate st (.ok res) =
        ({ success := true
           threshold := some (res.best_thresholds.getD 0.5)
           f1_score := some res.best_f1_score
           roc_auc := some res.roc_auc
           error := none },
         { st with is_calibrated := true
                   calibration_threshold := res.best_thresholds.getD 0.5 })) ∧
    (∀ (st : TAState) (e : String),
      taCalibrate st (.error e) =
        ({ success := false, threshold := none, f1_score := none,
           roc_auc := none, error := some e }, st)) :=
  ⟨fun _ _ => rfl, fun _ _ => rfl⟩

/-- C2: whenever at least one of the five analyzers raises on a text, the
engine catches it, records the neutral `{error, 0.5, 0.5, 0.0}` entry for
that analyzer, and still returns a complete ensemble result.  (All five
analyzers share `_validate_input` and their metric bodies are
exception-free, so failures are all-or-nothing; in particular the
aggregation's unguarded `statistics.variance` is never reached with a
singleton prediction list.) -/
theorem ensemble_failure_neutral (t : PyInput)
    (h : ∃ a ∈ concreteRoster, ∃ e, a.runE t = .error e) :
    ∃ out, ensembleAnalyzeE concreteRoster defaultWeights t = .ok out ∧
      out.analyzer_count = 5 ∧
      (∀ a ∈ concreteRoster, ∀ e, a.runE t = .error e →
        out.individual_results.lookup a.name =
          some { error := some e, ai_probability := 0.5,
                 human_probability := 0.5, confidence := 0 }) := by
  obtain ⟨a, ha, e, hae⟩ := h
  have hv : validateInputErr t = some e := (roster_run_error_iff ha t e).mp hae
  refine ⟨neutralEnsembleOut e, ensembleAnalyzeE_neutral t e hv, rfl, ?_⟩
  intro a2 ha2 e2 hae2
  have hv2 : validateInputErr t = some e2 := (roster_run_error_iff ha2 t e2).mp hae2
  have hee : e2 = e := by
    rw [hv] at hv2
    exact (Option.some_inj.mp hv2).symm
  subst hee
  simp only [concreteRoster, List.mem_cons, List.not_mem_nil, or_false] at ha2
  rcases ha2 with rfl | rfl | rfl | rfl | rfl <;>
    simp [neutralEnsembleOut, neutralIndividual, neutralRec, List.lookup,
      lexicalAnalyzerI, syntacticAnalyzerI, semanticAnalyzerI,
      stylisticAnalyzerI, mlAnalyzerI]

theorem ensemble_failure_neutral_witness :
    (∃ a ∈ concreteRoster, ∃ e, a.runE (.str "hi") = .error e) ∧
    (∃ out, ensembleAnalyzeE concreteRoster defaultWeights (.str "hi") = .ok out ∧
      out.analyzer_count = 5 ∧
      (∀ a ∈ concreteRoster, ∀ e, a.runE (.str "hi") = .error e →
        out.individual_results.lookup a.name =
          some { error := some e, ai_probability := 0.5,
                 human_probability := 0.5, confidence := 0 })) := by
  have hmem : lexicalAnalyzerI ∈ concreteRoster := by
    rw [concreteRoster]
    exact List.mem_cons_self _ _
  have herr : lexicalAnalyzerI.runE (.str "hi") = .error shortMsg := by
    show mkRun lexicalMetrics lexPredict (fun m => m.confidence) (.str "hi") =
      .error shortMsg
    exact (mkRun_error_iff lexicalMetrics lexPredict (fun m => m.confidence)
      (.str "hi") shortMsg).mpr (by decide)
  exact ⟨⟨_, hmem, _, herr⟩, ensemble_failure_neutral _ ⟨_, hmem, _, herr⟩⟩

theorem taAnalyze_invalid (st : TAState) (s : String)
    (hc : cacheTruthy st.cache = false)
    (hvalid : (validateText (.str s)).valid = false) :
    taAnalyze st s = .error "Invalid input" := by
  unfold taAnalyze
  rw [hc]
  simp only [if_false, Bool.false_eq_true, hvalid]

/-- C1 (amended): empty input fails validation before any analyzer runs
(the `ValueError` is raised right after `validate_text`), and non-string
input is reported invalid by the validator; but a nonempty text shorter
than the 10-character/10-word minimum is NOT rejected — the length check
only appends a warning, so the facade's errors for such texts are exactly
the security-scan errors. -/
theorem validation_behavior :
    (taAnalyze freshState "" = .error "Invalid input" ∧
      (validateText (.str "")).errors = ["Empty text"]) ∧
    ((validateText .nonStr).valid = false ∧
      "Input must be a string" ∈ (validateText .nonStr).errors) ∧
    (∀ s : String, s ≠ "" → s.length ≤ 50000 → (pySplit s).length ≤ 5000 →
      (validateText (.str s)).errors = securityErrors s) ∧
    (∀ s : String, (pySplit s).length < 10 →
      "Very short text" ∈ (validateText (.str s)).warnings) := by
  refine ⟨⟨?_, by decide⟩, ⟨by decide, by decide⟩, ?_, ?_⟩
  · exact taAnalyze_invalid freshState "" rfl (by decide)
  · intro s h1 h2 h3
    have hlen : s.length ≠ 0 := by
      intro hcon
      apply h1
      cases s with
      | mk data =>
        cases data with
        | nil => rfl
        | cons c cs => simp [String.length] at hcon
    show baseErrors s ++ securityErrors s = securityErrors s
    have hbase : baseErrors s = [] := by
      unfold baseErrors
      rw [if_neg hlen, if_neg (by omega), if_neg (by omega)]
      rfl
    rw [hbase, List.nil_append]
  · intro s h
    show "Very short text" ∈ baseWarnings s
    unfold baseWarnings
    rw [if_pos h]
    exact List.mem_append_left _ (List.mem_cons_self _ _)

theorem validation_behavior_witness :
    (shortText ≠ "" ∧ shortText.length ≤ 50000 ∧
      (pySplit shortText).length ≤ 5000 ∧ (pySplit shortText).length < 10) ∧
    (validateText (.str shortText)).errors = securityErrors shortText ∧
    "Very short text" ∈ (validateText (.str shortText)).warnings := by
  refine ⟨by decide, ?_, ?_⟩
  · exact validation_behavior.2.2.1 shortText (by decide) (by decide) (by decide)
  · exact validation_behavior.2.2.2 shortText (by decide)

/-- C1 counterexample: `"abc defg."` is only 9 characters after trimming —
below the claimed 10-character minimum — yet `TextAnalyzer.analyze`
returns a result instead of raising a validation error (every analyzer
fails internally and the pipeline degrades to the neutral result). -/
theorem short_text_not_rejected :
    (pyStrip shortText).length = 9 ∧
    isOkE (taAnalyze freshState shortText) = true := by
  constructor
  · decide
  · rw [taAnalyze_neutral_eval shortText
      { valid := true, errors := [], warnings := ["Very short text"] }
      (by decide) rfl (by decide)]
    rfl

set_option maxRecDepth 40000 in
theorem taAnalyze_c10t1_eval :
    taAnalyze freshState c10t1 = .ok
      (neutralResultW
        { valid := true, errors := []
          warnings := ["Very short text", "No clear sentence structure detected"] },
       neutralState) :=
  taAnalyze_neutral_eval c10t1 _ (by decide) rfl (by decide)

/-- C10 (amended): the cache key indeed identifies any two texts longer
than 200 characters with equal length and equal first/last 100 characters
— but the cache is never populated: the write is guarded by
`if self.cache:`, which is false for the empty dict it starts as, so after
any successful analysis from an empty cache the cache is still empty and
no call can ever return another text's cached result. -/
theorem cache_never_populated (st : TAState) (s : String)
    (r : AnalysisResult) (st2 : TAState)
    (hc : st.cache = some [])
    (h : taAnalyze st s = .ok (r, st2)) :
    st2.cache = some [] ∧
    (∀ t1 t2 : String, 200 < t1.length → t1.length = t2.length →
      strTake 100 t1 = strTake 100 t2 → strTakeLast 100 t1 = strTakeLast 100 t2 →
      cacheKey t1 = cacheKey t2) := by
  constructor
  · have hct : cacheTruthy st.cache = false := by rw [hc]; rfl
    unfold taAnalyze at h
    rw [hct] at h
    simp only [if_false, Bool.false_eq_true] at h
    by_cases hv : (validateText (.str s)).valid
    · rw [if_pos hv] at h
      cases hE : ensembleAnalyzeE concreteRoster defaultWeights (.str s) with
      | error e =>
        rw [hE] at h
        exact absurd h (by simp)
      | ok out =>
        rw [hE] at h
        have hct1 : cacheTruthy st.cache = false := hct
        simp only [hct1, Bool.false_eq_true, if_false] at h
        have := (Prod.mk.injEq _ _ _ _).mp ((Except.ok.injEq _ _).mp h)
        rw [← this.2, hc]
    · rw [if_neg hv] at h
      exact absurd h (by simp)
  · intro t1 t2 h1 h2 h3 h4
    unfold cacheKey cacheSample
    rw [if_pos h1, if_pos (h2 ▸ h1), h2, h3, h4]

set_option maxRecDepth 40000 in
theorem cache_never_populated_witness :
    freshState.cache = some [] ∧ neutralState.cache = some [] ∧
    200 < c10t1.length ∧ c10t1.length = c10t2.length ∧
    cacheKey c10t1 = cacheKey c10t2 := by
  have h := cache_never_populated freshState c10t1
    (neutralResultW
      { valid := true, errors := []
        warnings := ["Very short text", "No clear sentence structure detected"] })
    neutralState rfl taAnalyze_c10t1_eval
  exact ⟨rfl, h.1, by decide, by decide,
    h.2 c10t1 c10t2 (by decide) (by decide) (by decide) (by decide)⟩

set_option maxRecDepth 40000 in
/-- C10 counterexample: `c10t1` and `c10t2` are distinct texts longer than
200 characters with equal length, equal first 100 and equal last 100
characters (hence equal cache keys), yet after analysing the first from a
fresh analyzer the second analyze does not return the first's result: it
is not served from a cache at all (the cache stayed empty) but freshly
validated — and rejected. -/
theorem cache_claim_false :
    cacheKey c10t1 = cacheKey c10t2 ∧ c10t1 ≠ c10t2 ∧
    200 < c10t1.length ∧ c10t1.length = c10t2.length ∧
    taAnalyze freshState c10t1 = .ok
      (neutralResultW
        { valid := true, errors := []
          warnings := ["Very short text", "No clear sentence structure detected"] },
       neutralState) ∧
    taAnalyze neutralState c10t2 = .error "Invalid input" := by
  refine ⟨by decide, by decide, by decide, by decide, taAnalyze_c10t1_eval, ?_⟩
  exact taAnalyze_invalid neutralState c10t2 rfl (by decide)

theorem gridLoop_spec (f : ℚ → ℚ) :
    ∀ (ts : List ℚ), ts.Pairwise (· < ·) → ∀ (b : ℚ) (o : Option ℚ),
      (gridLoop f ts b o = (b, o) ∧ ∀ t ∈ ts, f t ≤ b) ∨
      (∃ t ∈ ts, gridLoop f ts b o = (f t, some t) ∧ b < f t ∧
        (∀ u ∈ ts, f u ≤ f t) ∧ (∀ u ∈ ts, u < t → f u < f t)) := by
  intro ts
  induction ts with
  | nil =>
    intro _ b o
    exact Or.inl ⟨rfl, by simp⟩
  | cons t0 ts ih =>
    intro hp b o
    have hp2 := (List.pairwise_cons.mp hp).2
    have hlt := (List.pairwise_cons.mp hp).1
    by_cases hb : b < f t0
    · rw [show gridLoop f (t0 :: ts) b o = gridLoop f ts (f t0) (some t0) by
        rw [gridLoop, if_pos hb]]
      rcases ih hp2 (f t0) (some t0) with ⟨heq, hall⟩ | ⟨t, ht, heq, hlt2, hmax, hfirst⟩
      · refine Or.inr ⟨t0, List.mem_cons_self _ _, heq, hb, ?_, ?_⟩
        · intro u hu
          rcases List.mem_cons.mp hu with rfl | hu2
          · exact le_rfl
          · exact hall u hu2
        · intro u hu hult
          rcases List.mem_cons.mp hu with rfl | hu2
          · exact absurd hult (lt_irrefl u)
          · exact absurd hult (not_lt.mpr (le_of_lt (hlt u hu2)))
      · refine Or.inr ⟨t, List.mem_cons_of_mem _ ht, heq, lt_trans hb hlt2, ?_, ?_⟩
        · intro u hu
          rcases List.mem_cons.mp hu with rfl | hu2
          · exact le_of_lt hlt2
          · exact hmax u hu2
        · intro u hu hult
          rcases List.mem_cons.mp hu with rfl | hu2
          · exact hlt2
          · exact hfirst u hu2 hult
    · push_neg at hb
      rw [show gridLoop f (t0 :: ts) b o = gridLoop f ts b o by
        rw [gridLoop, if_neg (not_lt.mpr hb)]]
      rcases ih hp2 b o with ⟨heq, hall⟩ | ⟨t, ht, heq, hlt2, hmax, hfirst⟩
      · refine Or.inl ⟨heq, ?_⟩
        intro u hu
        rcases List.mem_cons.mp hu with rfl | hu2
        · exact hb
        · exact hall u hu2
      · refine Or.inr ⟨t, List.mem_cons_of_mem _ ht, heq, hlt2, ?_, ?_⟩
        · intro u hu
          rcases List.mem_cons.mp hu with rfl | hu2
          · exact le_trans hb (le_of_lt hlt2)
          · exact hmax u hu2
        · intro u hu hult
          rcases List.mem_cons.mp hu with rfl | hu2
          · exact lt_of_le_of_lt hb hlt2
          · exact hfirst u hu2 hult

theorem gridThresholds_eq :
    gridThresholds = [1/10, 3/20, 1/5, 1/4, 3/10, 7/20, 2/5, 9/20, 1/2,
      11/20, 3/5, 13/20, 7/10, 3/4, 4/5, 17/20] := by
  unfold gridThresholds
  rw [show List.range 16 = [0, 1, 2, 3, 4, 5, 6, 7, 8, 9, 10, 11, 12, 13, 14, 15]
    from rfl]
  norm_num [List.map_cons, List.map_nil]

theorem gridThresholds_pairwise : gridThresholds.Pairwise (· < ·) := by
  rw [gridThresholds_eq]
  norm_num [List.pairwise_cons]

theorem gridThresholds_bounds : ∀ u ∈ gridThresholds, 1/10 ≤ u ∧ u < 9/10 := by
  rw [gridThresholds_eq]
  intro u hu
  simp only [List.mem_cons, List.not_mem_nil, or_false] at hu
  rcases hu with rfl | rfl | rfl | rfl | rfl | rfl | rfl | rfl | rfl | rfl |
    rfl | rfl | rfl | rfl | rfl | rfl <;> norm_num

/-- C7: whenever some grid threshold achieves a positive F1 (otherwise
`best_thresholds` stays empty and the lookup raises `KeyError`), grid
search returns the first threshold — in ascending order, by the strict
`f1 > best_f1` update — attaining the maximal F1, and that threshold lies
on the grid `0.1, 0.15, …, 0.85 ⊂ [0.1, 0.9)`. -/
theorem grid_search_first_max (d : List GridPred)
    (h : ∃ t ∈ gridThresholds, 0 < f1At d t) :
    ∃ out, gridSearchCalibration d = .ok out ∧
      out.ai_threshold ∈ gridThresholds ∧
      out.best_f1 = f1At d out.ai_threshold ∧
      (∀ t ∈ gridThresholds, f1At d t ≤ f1At d out.ai_threshold) ∧
      (∀ t ∈ gridThresholds, t < out.ai_threshold →
        f1At d t < f1At d out.ai_threshold) ∧
      1/10 ≤ out.ai_threshold ∧ out.ai_threshold < 9/10 := by
  rcases gridLoop_spec (f1At d) gridThresholds gridThresholds_pairwise 0 none with
    ⟨_, hall⟩ | ⟨t, ht, heq, _, hmax, hfirst⟩
  · obtain ⟨t, ht, hft⟩ := h
    exact absurd (hall t ht) (by linarith)
  · refine ⟨{ ai_threshold := t
              best_f1 := f1At d t
              best_accuracy := accAt d t
              tp := tpAt d t
              fp := fpAt d t
              tn := tnAt d t
              fn := fnAt d t },
      ?_, ht, rfl, hmax, hfirst,
      (gridThresholds_bounds t ht).1, (gridThresholds_bounds t ht).2⟩
    unfold gridSearchCalibration
    rw [heq]

theorem grid_search_first_max_witness :
    ((1 : ℚ)/4 ∈ gridThresholds ∧ 0 < f1At gridWitnessData (1/4)) ∧
    (∃ out, gridSearchCalibration gridWitnessData = .ok out ∧
      out.ai_threshold ∈ gridThresholds ∧
      out.best_f1 = f1At gridWitnessData out.ai_threshold ∧
      (∀ t ∈ gridThresholds, f1At gridWitnessData t ≤
        f1At gridWitnessData out.ai_threshold) ∧
      (∀ t ∈ gridThresholds, t < out.ai_threshold →
        f1At gridWitnessData t < f1At gridWitnessData out.ai_threshold) ∧
      1/10 ≤ out.ai_threshold ∧ out.ai_threshold < 9/10) := by
  have hmem : (1 : ℚ)/4 ∈ gridThresholds := by
    rw [gridThresholds_eq]
    exact List.mem_cons_of_mem _ (List.mem_cons_of_mem _
      (List.mem_cons_of_mem _ (List.mem_cons_self _ _)))
  have htp : tpAt gridWitnessData (1/4) = 1 := by
    norm_num [tpAt, gridWitnessData, List.filter_cons, List.filter_nil,
      decide_eq_true_eq]
  have hfp : fpAt gridWitnessData (1/4) = 0 := by
    norm_num [fpAt, gridWitnessData, List.filter_cons, List.filter_nil,
      decide_eq_true_eq]
  have hfn : fnAt gridWitnessData (1/4) = 0 := by
    norm_num [fnAt, gridWitnessData, List.filter_cons, List.filter_nil,
      decide_eq_true_eq]
  have hf1 : f1At gridWitnessData (1/4) = 1 := by
    rw [f1At, precisionAt, recallAt, htp, hfp, hfn]
    norm_num
  exact ⟨⟨hmem, by rw [hf1]; norm_num⟩,
    grid_search_first_max gridWitnessData ⟨1/4, hmem, by rw [hf1]; norm_num⟩⟩

theorem tpAt_all_human (d : List GridPred) (h : ∀ p ∈ d, p.label = 0)
    (t : ℚ) : tpAt d t = 0 := by
  unfold tpAt
  rw [List.length_eq_zero, List.filter_eq_nil_iff]
  intro p hp
  simp [h p hp]

theorem f1At_all_human (d : List GridPred) (h : ∀ p ∈ d, p.label = 0)
    (t : ℚ) : f1At d t = 0 := by
  have htp := tpAt_all_human d h t
  have hprec : precisionAt d t = 0 := by
    unfold precisionAt
    rw [htp]
    split
    · rfl
    · simp
  have hrec : recallAt d t = 0 := by
    unfold recallAt
    rw [htp]
    split
    · rfl
    · simp
  rw [f1At, hprec, hrec]
  norm_num

/-- C8: the code, evaluated at the failing input — a dataset whose labels
are all "human".  Every threshold then has F1 = 0, the strict `f1 > best_f1`
update never fires, `best_thresholds` stays `{}`, and line 145's
`best_thresholds['ai_threshold']` raises `KeyError` instead of completing
with zero/NaN-safe defaults. -/
theorem grid_search_all_human_raises :
    (∀ p ∈ allHumanData, p.label = 0) ∧
    (∀ t ∈ gridThresholds, f1At allHumanData t = 0) ∧
    gridSearchCalibration allHumanData = .error "KeyError: ai_threshold" := by
  have hlab : ∀ p ∈ allHumanData, p.label = 0 := by
    intro p hp
    simp only [allHumanData, List.mem_cons, List.not_mem_nil, or_false] at hp
    rcases hp with rfl | rfl <;> rfl
  refine ⟨hlab, fun t _ => f1At_all_human allHumanData hlab t, ?_⟩
  rcases gridLoop_spec (f1At allHumanData) gridThresholds gridThresholds_pairwise
    0 none with ⟨heq, _⟩ | ⟨t, ht, _, hpos, _, _⟩
  · unfold gridSearchCalibration
    rw [heq]
  · rw [f1At_all_human allHumanData hlab t] at hpos
    exact absurd hpos (lt_irrefl 0)

/-- C6 (amended): the claim "every ratio-valued feature lies in [0,1]" is
too strong — `burstiness` is a ratio feature with range `[-1, 1]` (see the
counterexample below).  What does hold for every input: the lexical
type–token, unique-word, vocabulary-richness, complex-word and long-word
ratios, the syntactic pattern repetitiveness, the semantic conceptual
density and the two ML transition diversities all lie in `[0,1]`;
`burstiness` lies in `[-1,1]`; sentence variability is nonnegative; and
every analyzer's feature dict carries a `confidence` in `[0,1]`. -/
theorem feature_bounds (s : String) :
    (0 ≤ (lexicalMetrics s).ttr ∧ (lexicalMetrics s).ttr ≤ 1) ∧
    (0 ≤ (lexicalMetrics s).unique_words_ratio ∧
      (lexicalMetrics s).unique_words_ratio ≤ 1) ∧
    (0 ≤ (lexicalMetrics s).vocabulary_richness ∧
      (lexicalMetrics s).vocabulary_richness ≤ 1) ∧
    (0 ≤ (lexicalMetrics s).complex_words_ratio ∧
      (lexicalMetrics s).complex_words_ratio ≤ 1) ∧
    (0 ≤ (lexicalMetrics s).long_words_ratio ∧
      (lexicalMetrics s).long_words_ratio ≤ 1) ∧
    (-1 ≤ (lexicalMetrics s).burstiness ∧ (lexicalMetrics s).burstiness ≤ 1) ∧
    (0 ≤ (syntacticMetrics s).pattern_repetitiveness ∧
      (syntacticMetrics s).pattern_repetitiveness ≤ 1) ∧
    0 ≤ (syntacticMetrics s).sentence_variability ∧
    (0 ≤ (semanticMetrics s).conceptual_density ∧
      (semanticMetrics s).conceptual_density ≤ 1) ∧
    (0 ≤ (mlMetrics s).transition_diversity ∧
      (mlMetrics s).transition_diversity ≤ 1) ∧
    (0 ≤ (mlMetrics s).char_transition_diversity ∧
      (mlMetrics s).char_transition_diversity ≤ 1) ∧
    (0 ≤ (lexicalMetrics s).confidence ∧ (lexicalMetrics s).confidence ≤ 1) ∧
    (0 ≤ (syntacticMetrics s).confidence ∧
      (syntacticMetrics s).confidence ≤ 1) ∧
    (0 ≤ (semanticMetrics s).confidence ∧ (semanticMetrics s).confidence ≤ 1) ∧
    (0 ≤ (stylisticMetrics s).confidence ∧
      (stylisticMetrics s).confidence ≤ 1) ∧
    (0 ≤ (mlMetrics s).confidence ∧ (mlMetrics s).confidence ≤ 1) := by
  have h1 := lexTtr_mem_unit s
  have h2 := lexComplexRatio_mem_unit s
  have h3 := lexLongRatio_mem_unit s
  have hB := lexBurstiness_bounds s
  have hBr := roundTo_bounds (-1) 1 4 (x := lexBurstiness s)
    (by exact_mod_cast hB.1) (by exact_mod_cast hB.2)
  have h4 := synPatternRep_mem_unit s
  have h5 := synVariability_nonneg s
  have h6 := semConceptualDensity_mem_unit s
  have h7 := mlTransitionDiversity_mem_unit s
  have h8 := mlCharTransitionDiversity_mem_unit s
  have c1 := lexConfidence_mem_unit s
  have c2 := synConfidence_mem_unit s
  have c3 := semConfidence_mem_unit s
  have c4 := styConfidence_mem_unit s
  have c5 := mlConfidence_mem_unit s
  refine ⟨roundTo_mem_unit 4 h1.1 h1.2, roundTo_mem_unit 4 h1.1 h1.2,
    roundTo_mem_unit 4 h1.1 h1.2, roundTo_mem_unit 4 h2.1 h2.2,
    roundTo_mem_unit 4 h3.1 h3.2,
    ⟨by exact_mod_cast hBr.1, by exact_mod_cast hBr.2⟩,
    roundTo_mem_unit 4 h4.1 h4.2, roundTo_nonneg 4 h5,
    roundTo_mem_unit 4 h6.1 h6.2, roundTo_mem_unit 4 h7.1 h7.2,
    roundTo_mem_unit 4 h8.1 h8.2,
    roundTo_mem_unit 4 c1.1 c1.2, roundTo_mem_unit 4 c2.1 c2.2,
    roundTo_mem_unit 4 c3.1 c3.2, roundTo_mem_unit 4 c4.1 c4.2,
    roundTo_mem_unit 4 c5.1 c5.2⟩

set_option maxRecDepth 40000 in
/-- C6 counterexample: on the four-distinct-word text
`"alpha beta gamma delta"` the lexical `burstiness` — itself computed as
the ratio `(std_freq − mean_freq)/(std_freq + mean_freq)` — equals `-1`,
outside `[0,1]`: the spec's "every ratio-valued feature lies in [0,1]" is
false as stated. -/
theorem lexical_burstiness_negative :
    (lexicalMetrics lexCounterText).burstiness = -1 ∧
    ¬ (0 ≤ (lexicalMetrics lexCounterText).burstiness) := by
  have hw : lexWords lexCounterText = ["alpha", "beta", "gamma", "delta"] := by
    decide
  have hf : lexFrequencies lexCounterText = [1, 1, 1, 1] := by
    unfold lexFrequencies
    rw [hw]
    simp +decide [freqValues, freqCounts, pyDedup]
  have hfR : lexFrequenciesR lexCounterText = [(1 : ℝ), 1, 1, 1] := by
    rw [lexFrequenciesR, hf]
    norm_num
  have hmean : lexMeanFreq lexCounterText = 1 := by
    unfold lexMeanFreq
    rw [hf, hfR]
    norm_num [listMean]
  have hstd : lexStdFreq lexCounterText = 0 := by
    unfold lexStdFreq
    rw [hf, hfR, if_pos (by norm_num)]
    exact sampleStd_replicate 4 1
  have hb : lexBurstiness lexCounterText = -1 := by
    unfold lexBurstiness
    rw [hmean, hstd]
    norm_num
  have hr : (lexicalMetrics lexCounterText).burstiness = -1 := by
    show roundTo 4 (lexBurstiness lexCounterText) = -1
    rw [hb]
    exact roundTo_eq_self (-10000) (by norm_num)
  exact ⟨hr, by rw [hr]; norm_num⟩

end TextAnalyzerModel
